import Mathlib

/-!
# TwitchAuth component: the authentication / request state machine

A shallow embedding of `TwitchAuthComponent.cpp`.  The component is a record of
its member variables; every member function becomes a function from the
component to the updated component together with the list of effects it
performed on its collaborators (browser widget, HTTP module, multicast
delegates, log), in program order.

Code the component calls but that is not part of the translated file is kept
abstract:

* `UTwitchApi` collects the constants and static helpers of the plugin's API
  class (endpoint paths, redirect marker, URL construction, token extraction,
  response validation, channel pre-extraction);
* `Engine` collects the engine primitives whose exact behaviour is not fixed by
  the component (`FString::Contains` with its default search mode, and the
  reflection driven `FJsonObjectConverter::JsonObjectStringToUStruct<T>`, which
  writes into the destination struct in place and returns a success flag).

Pointers that the code dereferences (`FHttpResponsePtr`) are `Option`s and a
dereference of a null pointer makes the function return `none`.
-/

namespace TwitchAuth

/-! ## Data model -/

/-- Modelled from the spec: the `PendingEndpoint` discriminator (declared in a
header that is not part of the translated file); the enumerator names are the
ones the component uses. -/
inductive ETwitchEndpoint where
  | None
  | User
  | Channels
  | Subscriptions
  | Following
  deriving DecidableEq

/-- Modelled from the spec: the `PendingIntent` discriminator (declared in a
header that is not part of the translated file); the enumerator names are the
ones the component uses. -/
inductive ETwitchRequest where
  | None
  | Subscription
  | Following
  deriving DecidableEq

/-- Modelled from the spec: the HTTP verb enumeration; the component only ever
passes `Get`. -/
inductive ETwitchHttpVerb where
  | Get
  | Post
  deriving DecidableEq

/-- Modelled from the spec: the `ApiError` record `{status, error, message}`. -/
structure FTwitchError where
  status : Int
  error : String
  message : String
  deriving DecidableEq

/-- Modelled from the spec: the identity record of the logged-in user; the
component itself only reads `_id`. -/
structure FTwitchUser where
  _id : String
  display_name : String
  deriving DecidableEq

/-- Modelled from the spec: the identity record of a named channel; the
component itself only reads `_id`. -/
structure FTwitchChannelUser where
  _id : String
  display_name : String
  deriving DecidableEq

/-- Modelled from the spec: the record describing a subscription; the component
never inspects its fields. -/
structure FTwitchSubscription where
  _id : String
  sub_plan : String
  deriving DecidableEq

/-- Modelled from the spec: the record describing a follow relation; the
component never inspects its fields. -/
structure FTwitchFollow where
  created_at : String
  notifications : Bool
  deriving DecidableEq

/-- A browser widget, identified by a handle.  `UWebBrowser*` is
`Option UWebBrowser`. -/
structure UWebBrowser where
  handle : Nat
  deriving DecidableEq

/-- Modelled from the spec: `buildRequest(clientId, token, endpointPath, verb)`
is a pure construction, so a request is represented by the four values it was
built from. -/
structure FHttpRequest where
  ClientId : String
  AccessToken : String
  Endpoint : String
  Verb : ETwitchHttpVerb
  deriving DecidableEq

/-- What the component reads from a response object: its status code and its
body.  `FHttpResponsePtr` is `Option FHttpResponse`. -/
structure FHttpResponse where
  ResponseCode : Int
  ContentAsString : String
  deriving DecidableEq

/-- The notifications the component broadcasts on its multicast delegates. -/
inductive Notification where
  | OnAuthenticationPageLoaded
  | OnAccessTokenPageLoaded
  | OnUserAuthenticated (bAuthenticated : Bool)
  | OnUserSubscribedToChannel (bSubscribed : Bool) (TwitchSubscription : FTwitchSubscription)
  | OnUserFollowingChannel (bFollowing : Bool) (TwitchFollow : FTwitchFollow)
  deriving DecidableEq

/-- Everything the component does to the outside world. -/
inductive Effect where
  /-- The call `WebBrowser->OnUrlChanged.AddDynamic(this, &HandleOnUrlChanged)`. -/
  | AddDynamic (WebBrowser : UWebBrowser)
  /-- The call `WebBrowser->LoadURL(url)`. -/
  | LoadURL (WebBrowser : UWebBrowser) (url : String)
  /-- The call `request->ProcessRequest()`, on a request whose completion delegate is
  bound to `OnResponseReceived`. -/
  | ProcessRequest (request : FHttpRequest)
  /-- The call `Delegate.Broadcast(...)`. -/
  | Broadcast (n : Notification)
  /-- The `UE_LOG` line written by `LogError`. -/
  | Log (logMessage : String)
  deriving DecidableEq

/-- The plugin's API helper class: constants and static functions the component
uses and that are defined outside the translated file. -/
structure UTwitchApi where
  USER_ENDPOINT : String
  CHANNEL_ENDPOINT : String
  SUBSCRIPTION_ENDPOINT : String
  FOLLOWING_ENDPOINT : String
  ACCESS_TOKEN_URI_CONTAINS : String
  GetAuthenticationUrl : String → List String → Bool → String
  ExtractAccessToken : String → String
  IsResponseValid : Option FHttpResponse → Bool → Bool
  ExtractTwitchChannelUserFromResponseBody : String → String

/-- Modelled from the spec: `buildRequest(clientId, token, endpointPath, verb)`,
pure construction of the request object. -/
def UTwitchApi.CreateHttpRequest (ClientId AccessToken Endpoint : String)
    (Verb : ETwitchHttpVerb) : FHttpRequest :=
  { ClientId := ClientId, AccessToken := AccessToken, Endpoint := Endpoint, Verb := Verb }

/-- Engine primitives.  `Contains url marker` is `url.Contains(marker)`;
`JsonTo… body old` is `JsonObjectStringToUStruct<T>(body, &old, 0, 0)`: it
returns the success flag and the contents of the destination afterwards. -/
structure Engine where
  Contains : String → String → Bool
  JsonToUser : String → FTwitchUser → Bool × FTwitchUser
  JsonToChannelUser : String → FTwitchChannelUser → Bool × FTwitchChannelUser
  JsonToSubscription : String → FTwitchSubscription → Bool × FTwitchSubscription
  JsonToFollow : String → FTwitchFollow → Bool × FTwitchFollow
  JsonToError : String → FTwitchError → Bool × FTwitchError

/-! ### `FString::Replace`

`FString::Replace(From, To)` scans left to right, copies the text before each
occurrence of `From`, emits `To` in its place and continues after the occurrence;
an empty `From` leaves the string as it is.  The default search mode ignores
case, which makes no difference for the patterns `$1` and `$2` the component
uses. -/

/-- The scanning loop of `FString::Replace` on character lists; the first
argument counts the characters of the current occurrence still to be skipped. -/
def FString.ReplaceChars (From To : List Char) : Nat → List Char → List Char
  | _, [] => []
  | k + 1, _ :: cs => FString.ReplaceChars From To k cs
  | 0, c :: cs =>
    if From.isPrefixOf (c :: cs) then
      To ++ FString.ReplaceChars From To (From.length - 1) cs
    else
      c :: FString.ReplaceChars From To 0 cs

/-- The call `s.Replace(From, To)`. -/
def FString.Replace (s From To : String) : String :=
  if s.data = [] ∨ From.data = [] then s
  else String.mk (FString.ReplaceChars From.data To.data 0 s.data)

/-- The component: configuration properties and member variables. -/
structure UTwitchAuthComponent where
  ClientId : String
  Permissions : List String
  bForceVerify : Bool
  m_AccessToken : String
  m_LastEndpoint : ETwitchEndpoint
  m_TwitchRequest : ETwitchRequest
  m_TwitchUser : FTwitchUser
  m_TwitchChannelUser : FTwitchChannelUser
  m_TwitchSubscription : FTwitchSubscription
  m_TwitchFollow : FTwitchFollow
  m_LastError : FTwitchError
  m_WebBrowser : Option UWebBrowser
  deriving DecidableEq

namespace UTwitchAuthComponent

/-! ## Accessors -/

/-- The accessor `GetUser`. -/
def GetUser (self : UTwitchAuthComponent) : FTwitchUser :=
  self.m_TwitchUser

/-- The accessor `GetAccessToken`. -/
def GetAccessToken (self : UTwitchAuthComponent) : String :=
  self.m_AccessToken

/-- The mutator `SetAccessToken`. -/
def SetAccessToken (self : UTwitchAuthComponent) (AccessToken : String) :
    UTwitchAuthComponent × List Effect :=
  ({ self with m_AccessToken := AccessToken }, [])

/-- The mutator `ClearAccessToken`. -/
def ClearAccessToken (self : UTwitchAuthComponent) : UTwitchAuthComponent × List Effect :=
  ({ self with m_AccessToken := "" }, [])

/-- The accessor `GetLastError`. -/
def GetLastError (self : UTwitchAuthComponent) : FTwitchError :=
  self.m_LastError

/-- The accessor `GetWebBrowser`. -/
def GetWebBrowser (self : UTwitchAuthComponent) : Option UWebBrowser :=
  self.m_WebBrowser

/-- The line `LogError` writes:
`error + "(" + FString::FromInt(status) + "): " + message`. -/
def LogError (twitchError : FTwitchError) : Effect :=
  Effect.Log (twitchError.error ++ "(" ++ toString twitchError.status ++ "): "
    ++ twitchError.message)

/-! ## Requests -/

/-- The function `ExecuteGetUserRequest`: build the user request, tag it, send it. -/
def ExecuteGetUserRequest (api : UTwitchApi) (self : UTwitchAuthComponent) :
    UTwitchAuthComponent × List Effect :=
  let request := UTwitchApi.CreateHttpRequest self.ClientId self.m_AccessToken
    api.USER_ENDPOINT ETwitchHttpVerb.Get
  ({ self with m_LastEndpoint := ETwitchEndpoint.User }, [Effect.ProcessRequest request])

/-- The function `ExecuteGetChannelRequest`. -/
def ExecuteGetChannelRequest (api : UTwitchApi) (self : UTwitchAuthComponent)
    (ChannelName : String) : UTwitchAuthComponent × List Effect :=
  let endpoint := api.CHANNEL_ENDPOINT ++ ChannelName
  let request := UTwitchApi.CreateHttpRequest self.ClientId self.m_AccessToken
    endpoint ETwitchHttpVerb.Get
  ({ self with m_LastEndpoint := ETwitchEndpoint.Channels }, [Effect.ProcessRequest request])

/-- The function `ExecuteCheckUserSubscriptionRequest`. -/
def ExecuteCheckUserSubscriptionRequest (api : UTwitchApi) (self : UTwitchAuthComponent)
    (TwitchUser : FTwitchUser) (TwitchChannel : FTwitchChannelUser) :
    UTwitchAuthComponent × List Effect :=
  let endpoint := api.SUBSCRIPTION_ENDPOINT
  let endpoint := FString.Replace endpoint "$1" TwitchUser._id
  let endpoint := FString.Replace endpoint "$2" TwitchChannel._id
  let request := UTwitchApi.CreateHttpRequest self.ClientId self.m_AccessToken
    endpoint ETwitchHttpVerb.Get
  ({ self with m_LastEndpoint := ETwitchEndpoint.Subscriptions },
    [Effect.ProcessRequest request])

/-- The function `ExecuteCheckUserFollowingRequest`. -/
def ExecuteCheckUserFollowingRequest (api : UTwitchApi) (self : UTwitchAuthComponent)
    (TwitchUser : FTwitchUser) (TwitchChannel : FTwitchChannelUser) :
    UTwitchAuthComponent × List Effect :=
  let endpoint := api.FOLLOWING_ENDPOINT
  let endpoint := FString.Replace endpoint "$1" TwitchUser._id
  let endpoint := FString.Replace endpoint "$2" TwitchChannel._id
  let request := UTwitchApi.CreateHttpRequest self.ClientId self.m_AccessToken
    endpoint ETwitchHttpVerb.Get
  ({ self with m_LastEndpoint := ETwitchEndpoint.Following },
    [Effect.ProcessRequest request])

/-! ## Public operations -/

/-- The operation `Authenticate`. -/
def Authenticate (api : UTwitchApi) (self : UTwitchAuthComponent)
    (WebBrowser : Option UWebBrowser) : UTwitchAuthComponent × List Effect :=
  if self.m_AccessToken ≠ "" then
    ExecuteGetUserRequest api self
  else
    match WebBrowser with
    | some b =>
      let self := { self with m_WebBrowser := some b }
      let url := api.GetAuthenticationUrl self.ClientId self.Permissions self.bForceVerify
      (self, [Effect.AddDynamic b, Effect.LoadURL b url])
    | none =>
      let error : FTwitchError :=
        { status := 404
          error := "Browser Widget not found"
          message := "Browser widget could not be found" }
      let self := { self with m_LastError := error }
      (self, [LogError self.m_LastError])

/-- The operation `IsUserSubscribedToChannel`. -/
def IsUserSubscribedToChannel (api : UTwitchApi) (self : UTwitchAuthComponent)
    (ChannelName : String) : UTwitchAuthComponent × List Effect :=
  ExecuteGetChannelRequest api { self with m_TwitchRequest := ETwitchRequest.Subscription }
    ChannelName

/-- The operation `IsUserFollowingChannel`. -/
def IsUserFollowingChannel (api : UTwitchApi) (self : UTwitchAuthComponent)
    (ChannelName : String) : UTwitchAuthComponent × List Effect :=
  ExecuteGetChannelRequest api { self with m_TwitchRequest := ETwitchRequest.Following }
    ChannelName

/-! ## Browser callback -/

/-- The navigation-changed handler `HandleOnUrlChanged`. -/
def HandleOnUrlChanged (api : UTwitchApi) (ue : Engine) (self : UTwitchAuthComponent)
    (url : String) : UTwitchAuthComponent × List Effect :=
  if ue.Contains url api.ACCESS_TOKEN_URI_CONTAINS = true then
    let self := { self with m_AccessToken := api.ExtractAccessToken url }
    let r := ExecuteGetUserRequest api self
    (r.1, Effect.Broadcast Notification.OnAccessTokenPageLoaded :: r.2)
  else
    (self, [Effect.Broadcast Notification.OnAuthenticationPageLoaded])

/-! ## Response handlers -/

/-- The handler `HandleGetUserResponse`. -/
def HandleGetUserResponse (ue : Engine) (self : UTwitchAuthComponent)
    (_Request : Option FHttpRequest) (Response : Option FHttpResponse) :
    Option (UTwitchAuthComponent × List Effect) :=
  match Response with
  | none => none
  | some response =>
    let responseBody := response.ContentAsString
    let r := ue.JsonToUser responseBody self.m_TwitchUser
    let self := { self with m_TwitchUser := r.2 }
    if r.1 = true then
      some (self, [Effect.Broadcast (Notification.OnUserAuthenticated true)])
    else
      some (self, [Effect.Broadcast (Notification.OnUserAuthenticated false)])

/-- The handler `HandleGetChannelResponse`. -/
def HandleGetChannelResponse (api : UTwitchApi) (ue : Engine) (self : UTwitchAuthComponent)
    (_Request : Option FHttpRequest) (Response : Option FHttpResponse) :
    Option (UTwitchAuthComponent × List Effect) :=
  match Response with
  | none => none
  | some response =>
    let responseBody := response.ContentAsString
    let responseBody := api.ExtractTwitchChannelUserFromResponseBody responseBody
    let r := ue.JsonToChannelUser responseBody self.m_TwitchChannelUser
    let self := { self with m_TwitchChannelUser := r.2 }
    if r.1 = true then
      let sent :=
        match self.m_TwitchRequest with
        | ETwitchRequest.Subscription =>
          ExecuteCheckUserSubscriptionRequest api self self.m_TwitchUser self.m_TwitchChannelUser
        | ETwitchRequest.Following =>
          ExecuteCheckUserFollowingRequest api self self.m_TwitchUser self.m_TwitchChannelUser
        | ETwitchRequest.None => (self, [])
      some ({ sent.1 with m_TwitchRequest := ETwitchRequest.None }, sent.2)
    else
      let twitchError : FTwitchError :=
        { error := "Not Found"
          status := 404
          message := "Channel could not be found" }
      let self := { self with m_LastError := twitchError }
      some (self, [LogError self.m_LastError,
        Effect.Broadcast (Notification.OnUserSubscribedToChannel false self.m_TwitchSubscription)])

/-- The handler `HandleCheckUserSubscriptionResponse`. -/
def HandleCheckUserSubscriptionResponse (ue : Engine) (self : UTwitchAuthComponent)
    (_Request : Option FHttpRequest) (Response : Option FHttpResponse) :
    Option (UTwitchAuthComponent × List Effect) :=
  match Response with
  | none => none
  | some response =>
    let responseBody := response.ContentAsString
    let r := ue.JsonToSubscription responseBody self.m_TwitchSubscription
    let self := { self with m_TwitchSubscription := r.2 }
    if r.1 = true then
      some (self, [Effect.Broadcast
        (Notification.OnUserSubscribedToChannel true self.m_TwitchSubscription)])
    else
      some (self, [])

/-- The handler `HandleCheckUserFollowingResponse`. -/
def HandleCheckUserFollowingResponse (ue : Engine) (self : UTwitchAuthComponent)
    (_Request : Option FHttpRequest) (Response : Option FHttpResponse) :
    Option (UTwitchAuthComponent × List Effect) :=
  match Response with
  | none => none
  | some response =>
    let responseBody := response.ContentAsString
    let r := ue.JsonToFollow responseBody self.m_TwitchFollow
    let self := { self with m_TwitchFollow := r.2 }
    if r.1 = true then
      some (self, [Effect.Broadcast
        (Notification.OnUserFollowingChannel true self.m_TwitchFollow)])
    else
      some (self, [])

/-- The completion callback `OnResponseReceived`, the single entry point for every
response. -/
def OnResponseReceived (api : UTwitchApi) (ue : Engine) (self : UTwitchAuthComponent)
    (Request : Option FHttpRequest) (Response : Option FHttpResponse)
    (bWasSuccessful : Bool) : Option (UTwitchAuthComponent × List Effect) :=
  if api.IsResponseValid Response bWasSuccessful = true then
    match self.m_LastEndpoint with
    | ETwitchEndpoint.User =>
      HandleGetUserResponse ue { self with m_LastEndpoint := ETwitchEndpoint.None }
        Request Response
    | ETwitchEndpoint.Channels =>
      HandleGetChannelResponse api ue { self with m_LastEndpoint := ETwitchEndpoint.None }
        Request Response
    | ETwitchEndpoint.Subscriptions =>
      HandleCheckUserSubscriptionResponse ue
        { self with m_LastEndpoint := ETwitchEndpoint.None } Request Response
    | ETwitchEndpoint.Following =>
      HandleCheckUserFollowingResponse ue
        { self with m_LastEndpoint := ETwitchEndpoint.None } Request Response
    | ETwitchEndpoint.None => some (self, [])
  else
    match Response with
    | none => none
    | some response =>
      let responseBody := response.ContentAsString
      let self := { self with m_LastError := (ue.JsonToError responseBody self.m_LastError).2 }
      match self.m_LastEndpoint with
      | ETwitchEndpoint.Following =>
        some (self, [LogError self.m_LastError,
          Effect.Broadcast (Notification.OnUserFollowingChannel false self.m_TwitchFollow)])
      | ETwitchEndpoint.Subscriptions =>
        some (self, [LogError self.m_LastError,
          Effect.Broadcast
            (Notification.OnUserSubscribedToChannel false self.m_TwitchSubscription)])
      | ETwitchEndpoint.Channels =>
        some (self, [LogError self.m_LastError,
          Effect.Broadcast
            (Notification.OnUserSubscribedToChannel false self.m_TwitchSubscription)])
      | ETwitchEndpoint.User =>
        some (self, [LogError self.m_LastError,
          Effect.Broadcast (Notification.OnUserAuthenticated false)])
      | ETwitchEndpoint.None => some (self, [])

end UTwitchAuthComponent

/-! ## Observations on an effect list -/

/-- The notifications broadcast, in order. -/
def notifications : List Effect → List Notification
  | [] => []
  | Effect.Broadcast n :: es => n :: notifications es
  | _ :: es => notifications es

/-- The HTTP requests sent, in order. -/
def requests : List Effect → List FHttpRequest
  | [] => []
  | Effect.ProcessRequest r :: es => r :: requests es
  | _ :: es => requests es

/-- The calls made on a browser widget, in order. -/
def browserActions : List Effect → List Effect
  | [] => []
  | Effect.AddDynamic b :: es => Effect.AddDynamic b :: browserActions es
  | Effect.LoadURL b u :: es => Effect.LoadURL b u :: browserActions es
  | _ :: es => browserActions es

/-! ## Concrete collaborators used to run the model -/

/-- Substring test on character lists, used by the sample engine. -/
def sampleContains : List Char → List Char → Bool
  | [], sub => sub.isPrefixOf []
  | c :: cs, sub => sub.isPrefixOf (c :: cs) || sampleContains cs sub

/-- A sample API helper: Twitch v5 style constants, the token is what follows the
first `=` of the redirect URL, and a response is valid when the transport
succeeded, the response object exists and the status is 200. -/
def sampleApi : UTwitchApi where
  USER_ENDPOINT := "https://api.twitch.tv/kraken/user"
  CHANNEL_ENDPOINT := "https://api.twitch.tv/kraken/users?login="
  SUBSCRIPTION_ENDPOINT := "https://api.twitch.tv/kraken/users/$1/subscriptions/$2"
  FOLLOWING_ENDPOINT := "https://api.twitch.tv/kraken/users/$1/follows/channels/$2"
  ACCESS_TOKEN_URI_CONTAINS := "access_token="
  GetAuthenticationUrl := fun ClientId _ _ => "https://id.twitch.tv/oauth2/authorize?client_id=" ++ ClientId
  ExtractAccessToken := fun url => String.mk ((url.data.dropWhile (fun c => c != '=')).drop 1)
  IsResponseValid := fun Response bWasSuccessful =>
    match Response with
    | none => false
    | some r => bWasSuccessful && decide (r.ResponseCode = 200)
  ExtractTwitchChannelUserFromResponseBody := fun body => body

/-- A sample engine: a body decodes when it is non-empty, and the decoded record
carries the body in its first field; `Contains` is a case-sensitive substring
test. -/
def sampleEngine : Engine where
  Contains := fun s sub => sampleContains s.data sub.data
  JsonToUser := fun body old =>
    if body = "" then (false, old) else (true, { _id := body, display_name := "user" })
  JsonToChannelUser := fun body old =>
    if body = "" then (false, old) else (true, { _id := body, display_name := "channel" })
  JsonToSubscription := fun body old =>
    if body = "" then (false, old) else (true, { _id := body, sub_plan := "1000" })
  JsonToFollow := fun body old =>
    if body = "" then (false, old) else (true, { created_at := body, notifications := true })
  JsonToError := fun body old =>
    if body = "" then (false, old) else (true, { status := 401, error := body, message := "" })

/-- A freshly constructed component with the given stored token. -/
def sampleComponent (token : String) : UTwitchAuthComponent where
  ClientId := "client"
  Permissions := ["user_read"]
  bForceVerify := false
  m_AccessToken := token
  m_LastEndpoint := ETwitchEndpoint.None
  m_TwitchRequest := ETwitchRequest.None
  m_TwitchUser := { _id := "", display_name := "" }
  m_TwitchChannelUser := { _id := "", display_name := "" }
  m_TwitchSubscription := { _id := "", sub_plan := "" }
  m_TwitchFollow := { created_at := "", notifications := false }
  m_LastError := { status := 0, error := "", message := "" }
  m_WebBrowser := none

/-! ## Events and runs

The component is driven by external events: the public operations, the browser's
navigation callback and the HTTP completion callback.  A run is a finite sequence
of events, each handled to completion before the next one. -/

/-- The events that reach the component. -/
inductive Event where
  | Authenticate (WebBrowser : Option UWebBrowser)
  | UrlChanged (url : String)
  | IsUserSubscribedToChannel (ChannelName : String)
  | IsUserFollowingChannel (ChannelName : String)
  | SetAccessToken (AccessToken : String)
  | ClearAccessToken
  | ResponseReceived (Request : Option FHttpRequest) (Response : Option FHttpResponse)
      (bWasSuccessful : Bool)
  deriving DecidableEq

/-- The member function an event invokes, applied to the component. -/
def dispatch (api : UTwitchApi) (ue : Engine) (self : UTwitchAuthComponent) :
    Event → Option (UTwitchAuthComponent × List Effect)
  | Event.Authenticate WebBrowser => some (UTwitchAuthComponent.Authenticate api self WebBrowser)
  | Event.UrlChanged url => some (UTwitchAuthComponent.HandleOnUrlChanged api ue self url)
  | Event.IsUserSubscribedToChannel ChannelName =>
    some (UTwitchAuthComponent.IsUserSubscribedToChannel api self ChannelName)
  | Event.IsUserFollowingChannel ChannelName =>
    some (UTwitchAuthComponent.IsUserFollowingChannel api self ChannelName)
  | Event.SetAccessToken AccessToken =>
    some (UTwitchAuthComponent.SetAccessToken self AccessToken)
  | Event.ClearAccessToken => some (UTwitchAuthComponent.ClearAccessToken self)
  | Event.ResponseReceived Request Response bWasSuccessful =>
    UTwitchAuthComponent.OnResponseReceived api ue self Request Response bWasSuccessful

/-- The component after a sequence of events delivered in any order; `none` when
one of the calls does not return. -/
def runEvents (api : UTwitchApi) (ue : Engine) :
    UTwitchAuthComponent → List Event → Option UTwitchAuthComponent
  | self, [] => some self
  | self, e :: es =>
    match dispatch api ue self e with
    | none => none
    | some r => runEvents api ue r.1 es

/-- The kind of a request, read off the endpoint it was built for: a user request
targets `USER_ENDPOINT`, a channel request `CHANNEL_ENDPOINT` followed by a name,
a subscription or following request the corresponding template with `$1` and
`$2` replaced.  No request has kind `None`. -/
def requestHasKind (api : UTwitchApi) : ETwitchEndpoint → FHttpRequest → Prop
  | ETwitchEndpoint.None, _ => False
  | ETwitchEndpoint.User, r => r.Endpoint = api.USER_ENDPOINT
  | ETwitchEndpoint.Channels, r => ∃ ChannelName, r.Endpoint = api.CHANNEL_ENDPOINT ++ ChannelName
  | ETwitchEndpoint.Subscriptions, r =>
    ∃ userId channelId, r.Endpoint =
      FString.Replace (FString.Replace api.SUBSCRIPTION_ENDPOINT "$1" userId) "$2" channelId
  | ETwitchEndpoint.Following, r =>
    ∃ userId channelId, r.Endpoint =
      FString.Replace (FString.Replace api.FOLLOWING_ENDPOINT "$1" userId) "$2" channelId

/-- The component together with the requests that were sent and not yet answered. -/
structure System where
  component : UTwitchAuthComponent
  outstanding : List FHttpRequest
  deriving DecidableEq

/-- The single-outstanding-request discipline: the operations that may send a
request (`Authenticate`, a navigation to a URL with the redirect marker, the two
channel checks) are only called while nothing is outstanding, and a completion
callback only arrives for the one request that is outstanding. -/
def disciplined (api : UTwitchApi) (ue : Engine) (sys : System) : Event → Bool
  | Event.Authenticate _ => decide (sys.outstanding = [])
  | Event.UrlChanged url =>
    !(ue.Contains url api.ACCESS_TOKEN_URI_CONTAINS) || decide (sys.outstanding = [])
  | Event.IsUserSubscribedToChannel _ => decide (sys.outstanding = [])
  | Event.IsUserFollowingChannel _ => decide (sys.outstanding = [])
  | Event.SetAccessToken _ => true
  | Event.ClearAccessToken => true
  | Event.ResponseReceived (some request) _ _ => decide (sys.outstanding = [request])
  | Event.ResponseReceived none _ _ => false

/-- The requests still outstanding once an event has been handled: a completion
callback retires the request it answers, and whatever the call sent is added. -/
def outstandingAfter (sys : System) (sent : List FHttpRequest) : Event → List FHttpRequest
  | Event.ResponseReceived _ _ _ => sent
  | _ => sys.outstanding ++ sent

/-- One event under the discipline; `none` when the discipline forbids the event
or the call does not return. -/
def stepDisciplined (api : UTwitchApi) (ue : Engine) (sys : System) (e : Event) :
    Option System :=
  if disciplined api ue sys e = true then
    match dispatch api ue sys.component e with
    | none => none
    | some r => some { component := r.1, outstanding := outstandingAfter sys (requests r.2) e }
  else none

/-- A sequence of events under the discipline. -/
def runDisciplined (api : UTwitchApi) (ue : Engine) : System → List Event → Option System
  | sys, [] => some sys
  | sys, e :: es =>
    match stepDisciplined api ue sys e with
    | none => none
    | some next => runDisciplined api ue next es

/-! ## Placeholder substitution as the specification words it -/

/-- One pass over the template in which every `$1` becomes the user id and every
`$2` the channel id, the inserted ids being copied as they are. -/
def substitutePlaceholdersChars (userId channelId : List Char) : List Char → List Char
  | [] => []
  | [a] => [a]
  | a :: b :: rest =>
    if a = '$' ∧ b = '1' then userId ++ substitutePlaceholdersChars userId channelId rest
    else if a = '$' ∧ b = '2' then channelId ++ substitutePlaceholdersChars userId channelId rest
    else a :: substitutePlaceholdersChars userId channelId (b :: rest)

/-- One pass over a text in which every occurrence of the placeholder `$digit` is
replaced by the given value, the value being copied as it is and not scanned
again. -/
def replacePlaceholderChars (digit : Char) (value : List Char) : List Char → List Char
  | [] => []
  | [a] => [a]
  | a :: b :: rest =>
    if a = '$' ∧ b = digit then value ++ replacePlaceholderChars digit value rest
    else a :: replacePlaceholderChars digit value (b :: rest)

/-- The endpoint path obtained by replacing every `$1` of the template by the
user id and then every `$2` of the resulting text by the channel id. -/
def substituteSequentially (template userId channelId : String) : String :=
  String.mk (replacePlaceholderChars '2' channelId.data
    (replacePlaceholderChars '1' userId.data template.data))

/-- Whether a template has a `$` directly in front of a `$1` placeholder, that
is, whether it contains `$$1`. -/
def dollarBeforeUserPlaceholder : List Char → Bool
  | a :: b :: c :: rest =>
    (a == '$' && b == '$' && c == '1') || dollarBeforeUserPlaceholder (b :: c :: rest)
  | _ => false

/-- The endpoint path the specification describes for a template and two ids. -/
def substitutePlaceholders (template userId channelId : String) : String :=
  String.mk (substitutePlaceholdersChars userId.data channelId.data template.data)

/-! ## Authenticate -/

open UTwitchAuthComponent

/-- C1: when the stored token is non-empty, `Authenticate` (with any browser
pointer, null or not) makes no call on a browser widget, sends exactly one HTTP
request, namely the GET request for the user endpoint built from `ClientId` and
the stored token, sets the endpoint tag to `User`, broadcasts nothing and leaves
the token and the last error as they were (indeed only the tag changes); and if
the response that then arrives is valid and its body decodes into a user, the
callback broadcasts `OnUserAuthenticated(true)` exactly once. -/
theorem Authenticate_with_token_requests_user (api : UTwitchApi) (ue : Engine)
    (self : UTwitchAuthComponent) (WebBrowser : Option UWebBrowser)
    (hToken : self.m_AccessToken ≠ "") :
    Authenticate api self WebBrowser =
        ({ self with m_LastEndpoint := ETwitchEndpoint.User },
          [Effect.ProcessRequest (UTwitchApi.CreateHttpRequest self.ClientId
            self.m_AccessToken api.USER_ENDPOINT ETwitchHttpVerb.Get)])
      ∧ browserActions (Authenticate api self WebBrowser).2 = []
      ∧ requests (Authenticate api self WebBrowser).2 =
          [{ ClientId := self.ClientId, AccessToken := self.m_AccessToken,
             Endpoint := api.USER_ENDPOINT, Verb := ETwitchHttpVerb.Get }]
      ∧ notifications (Authenticate api self WebBrowser).2 = []
      ∧ (Authenticate api self WebBrowser).1.m_LastEndpoint = ETwitchEndpoint.User
      ∧ (Authenticate api self WebBrowser).1.m_AccessToken = self.m_AccessToken
      ∧ (Authenticate api self WebBrowser).1.m_LastError = self.m_LastError
      ∧ ∀ (Request : Option FHttpRequest) (response : FHttpResponse) (bWasSuccessful : Bool),
          api.IsResponseValid (some response) bWasSuccessful = true →
          (ue.JsonToUser response.ContentAsString self.m_TwitchUser).1 = true →
          OnResponseReceived api ue (Authenticate api self WebBrowser).1 Request
              (some response) bWasSuccessful
            = some ({ self with
                        m_LastEndpoint := ETwitchEndpoint.None
                        m_TwitchUser := (ue.JsonToUser response.ContentAsString
                          self.m_TwitchUser).2 },
                [Effect.Broadcast (Notification.OnUserAuthenticated true)]) := by
  have hA : Authenticate api self WebBrowser =
      ({ self with m_LastEndpoint := ETwitchEndpoint.User },
        [Effect.ProcessRequest (UTwitchApi.CreateHttpRequest self.ClientId
          self.m_AccessToken api.USER_ENDPOINT ETwitchHttpVerb.Get)]) := by
    simp [Authenticate, hToken, ExecuteGetUserRequest]
  rw [hA]
  refine ⟨rfl, rfl, rfl, rfl, rfl, rfl, rfl, ?_⟩
  intro Request response bWasSuccessful hValid hDecode
  simp only [OnResponseReceived, hValid, if_true, HandleGetUserResponse, hDecode]

/-- C1, run on a component holding the token `abc`, with no browser widget, and
answered by a 200 response with body `u1`. -/
theorem Authenticate_with_token_requests_user_witness :
    (sampleComponent "abc").m_AccessToken ≠ ""
      ∧ requests (Authenticate sampleApi (sampleComponent "abc") none).2 =
          [{ ClientId := "client", AccessToken := "abc",
             Endpoint := "https://api.twitch.tv/kraken/user", Verb := ETwitchHttpVerb.Get }]
      ∧ OnResponseReceived sampleApi sampleEngine
            (Authenticate sampleApi (sampleComponent "abc") none).1 none
            (some { ResponseCode := 200, ContentAsString := "u1" }) true
          = some ({ sampleComponent "abc" with
                      m_TwitchUser := { _id := "u1", display_name := "user" } },
              [Effect.Broadcast (Notification.OnUserAuthenticated true)]) := by
  have hToken : (sampleComponent "abc").m_AccessToken ≠ "" := by decide
  have h := Authenticate_with_token_requests_user sampleApi sampleEngine
    (sampleComponent "abc") none hToken
  exact ⟨hToken, h.2.2.1, h.2.2.2.2.2.2.2 none
    { ResponseCode := 200, ContentAsString := "u1" } true (by decide) (by decide)⟩

/-- C3: when the stored token is empty and the browser pointer is null,
`Authenticate` stores exactly the error
`{404, "Browser Widget not found", "Browser widget could not be found"}` as
last error and changes no other member (token, endpoint tag, pending intent, user
record and stored browser pointer are as before); its only effect is the log line
for that error: no call on a browser widget, no HTTP request, no broadcast. -/
theorem Authenticate_without_browser_records_error (api : UTwitchApi)
    (self : UTwitchAuthComponent) (hToken : self.m_AccessToken = "") :
    Authenticate api self none =
        ({ self with
             m_LastError :=
               { status := 404
                 error := "Browser Widget not found"
                 message := "Browser widget could not be found" } },
          [LogError
            { status := 404
              error := "Browser Widget not found"
              message := "Browser widget could not be found" }])
      ∧ GetLastError (Authenticate api self none).1 =
          { status := 404
            error := "Browser Widget not found"
            message := "Browser widget could not be found" }
      ∧ (Authenticate api self none).1.m_AccessToken = self.m_AccessToken
      ∧ (Authenticate api self none).1.m_LastEndpoint = self.m_LastEndpoint
      ∧ (Authenticate api self none).1.m_TwitchRequest = self.m_TwitchRequest
      ∧ (Authenticate api self none).1.m_TwitchUser = self.m_TwitchUser
      ∧ (Authenticate api self none).1.m_WebBrowser = self.m_WebBrowser
      ∧ browserActions (Authenticate api self none).2 = []
      ∧ requests (Authenticate api self none).2 = []
      ∧ notifications (Authenticate api self none).2 = [] := by
  have hA : Authenticate api self none =
      ({ self with
           m_LastError :=
             { status := 404
               error := "Browser Widget not found"
               message := "Browser widget could not be found" } },
        [LogError
          { status := 404
            error := "Browser Widget not found"
            message := "Browser widget could not be found" }]) := by
    simp [Authenticate, hToken]
  rw [hA]
  exact ⟨rfl, rfl, rfl, rfl, rfl, rfl, rfl, rfl, rfl, rfl⟩

/-- C3, run on a fresh component without token. -/
theorem Authenticate_without_browser_records_error_witness :
    (sampleComponent "").m_AccessToken = ""
      ∧ GetLastError (Authenticate sampleApi (sampleComponent "") none).1 =
          { status := 404
            error := "Browser Widget not found"
            message := "Browser widget could not be found" }
      ∧ requests (Authenticate sampleApi (sampleComponent "") none).2 = []
      ∧ notifications (Authenticate sampleApi (sampleComponent "") none).2 = [] :=
  have h := Authenticate_without_browser_records_error sampleApi (sampleComponent "") rfl
  ⟨rfl, h.2.1, h.2.2.2.2.2.2.2.2.1, h.2.2.2.2.2.2.2.2.2⟩

/-! ## Navigation -/

/-- C2: the navigation-changed handler, on a URL for which the marker test
`url.Contains(ACCESS_TOKEN_URI_CONTAINS)` succeeds, broadcasts
`OnAccessTokenPageLoaded` once, stores `ExtractAccessToken(url)` as the token,
sends exactly one request, the user request carrying that new token, and sets
the endpoint tag to `User` (nothing else changes); on a URL for which the test
fails it broadcasts `OnAuthenticationPageLoaded` once, sends nothing and leaves
the whole component, in particular token and endpoint tag, as it was. -/
theorem HandleOnUrlChanged_marker_or_not (api : UTwitchApi) (ue : Engine)
    (self : UTwitchAuthComponent) (url : String) :
    (ue.Contains url api.ACCESS_TOKEN_URI_CONTAINS = true →
        HandleOnUrlChanged api ue self url =
            ({ self with
                 m_AccessToken := api.ExtractAccessToken url
                 m_LastEndpoint := ETwitchEndpoint.User },
              [Effect.Broadcast Notification.OnAccessTokenPageLoaded,
               Effect.ProcessRequest (UTwitchApi.CreateHttpRequest self.ClientId
                 (api.ExtractAccessToken url) api.USER_ENDPOINT ETwitchHttpVerb.Get)])
          ∧ notifications (HandleOnUrlChanged api ue self url).2 =
              [Notification.OnAccessTokenPageLoaded]
          ∧ GetAccessToken (HandleOnUrlChanged api ue self url).1 = api.ExtractAccessToken url
          ∧ requests (HandleOnUrlChanged api ue self url).2 =
              [{ ClientId := self.ClientId, AccessToken := api.ExtractAccessToken url,
                 Endpoint := api.USER_ENDPOINT, Verb := ETwitchHttpVerb.Get }]
          ∧ (HandleOnUrlChanged api ue self url).1.m_LastEndpoint = ETwitchEndpoint.User)
      ∧ (ue.Contains url api.ACCESS_TOKEN_URI_CONTAINS = false →
        HandleOnUrlChanged api ue self url =
            (self, [Effect.Broadcast Notification.OnAuthenticationPageLoaded])
          ∧ notifications (HandleOnUrlChanged api ue self url).2 =
              [Notification.OnAuthenticationPageLoaded]
          ∧ GetAccessToken (HandleOnUrlChanged api ue self url).1 = GetAccessToken self
          ∧ (HandleOnUrlChanged api ue self url).1.m_LastEndpoint = self.m_LastEndpoint
          ∧ requests (HandleOnUrlChanged api ue self url).2 = []) := by
  constructor
  · intro hMarker
    have hH : HandleOnUrlChanged api ue self url =
        ({ self with
             m_AccessToken := api.ExtractAccessToken url
             m_LastEndpoint := ETwitchEndpoint.User },
          [Effect.Broadcast Notification.OnAccessTokenPageLoaded,
           Effect.ProcessRequest (UTwitchApi.CreateHttpRequest self.ClientId
             (api.ExtractAccessToken url) api.USER_ENDPOINT ETwitchHttpVerb.Get)]) := by
      simp [HandleOnUrlChanged, hMarker, ExecuteGetUserRequest]
    rw [hH]
    exact ⟨rfl, rfl, rfl, rfl, rfl⟩
  · intro hOther
    have hH : HandleOnUrlChanged api ue self url =
        (self, [Effect.Broadcast Notification.OnAuthenticationPageLoaded]) := by
      simp [HandleOnUrlChanged, hOther]
    rw [hH]
    exact ⟨rfl, rfl, rfl, rfl, rfl⟩

/-- C2, run on a redirect URL carrying the token `tok1` and on a provider login
page. -/
theorem HandleOnUrlChanged_marker_or_not_witness :
    (GetAccessToken (HandleOnUrlChanged sampleApi sampleEngine (sampleComponent "")
          "https://localhost/#access_token=tok1").1 = "tok1"
        ∧ requests (HandleOnUrlChanged sampleApi sampleEngine (sampleComponent "")
            "https://localhost/#access_token=tok1").2 =
            [{ ClientId := "client", AccessToken := "tok1",
               Endpoint := "https://api.twitch.tv/kraken/user", Verb := ETwitchHttpVerb.Get }])
      ∧ HandleOnUrlChanged sampleApi sampleEngine (sampleComponent "") "https://login" =
          (sampleComponent "", [Effect.Broadcast Notification.OnAuthenticationPageLoaded]) :=
  ⟨⟨((HandleOnUrlChanged_marker_or_not sampleApi sampleEngine (sampleComponent "")
        "https://localhost/#access_token=tok1").1 (by decide)).2.2.1,
    ((HandleOnUrlChanged_marker_or_not sampleApi sampleEngine (sampleComponent "")
        "https://localhost/#access_token=tok1").1 (by decide)).2.2.2.1⟩,
   ((HandleOnUrlChanged_marker_or_not sampleApi sampleEngine (sampleComponent "")
        "https://login").2 (by decide)).1⟩

/-! ## Token store -/

/-- C10: `GetAccessToken` after `SetAccessToken(t)` is `t`, `GetAccessToken`
after `ClearAccessToken` is the empty string, and both mutators change the token
member only, send no request and broadcast nothing (they have no effect at
all). -/
theorem AccessToken_set_get_clear (self : UTwitchAuthComponent) (t : String) :
    GetAccessToken (SetAccessToken self t).1 = t
      ∧ GetAccessToken (ClearAccessToken self).1 = ""
      ∧ (SetAccessToken self t).1 = { self with m_AccessToken := t }
      ∧ (ClearAccessToken self).1 = { self with m_AccessToken := "" }
      ∧ (SetAccessToken self t).2 = []
      ∧ (ClearAccessToken self).2 = []
      ∧ requests (SetAccessToken self t).2 = []
      ∧ notifications (SetAccessToken self t).2 = []
      ∧ requests (ClearAccessToken self).2 = []
      ∧ notifications (ClearAccessToken self).2 = [] :=
  ⟨rfl, rfl, rfl, rfl, rfl, rfl, rfl, rfl, rfl, rfl⟩

/-! ## The response callback on a valid response -/

/-- C5: with the endpoint tag at `User`, a valid response makes the callback
return with the tag reset to `None`, no request sent and exactly one broadcast:
`OnUserAuthenticated(true)` when the body decodes into a user, the decoded record
then being what `GetUser` returns, and `OnUserAuthenticated(false)` when the
decode fails, the last error being left as it was. -/
theorem OnResponseReceived_valid_user (api : UTwitchApi) (ue : Engine)
    (self : UTwitchAuthComponent) (Request : Option FHttpRequest) (response : FHttpResponse)
    (bWasSuccessful : Bool) (hTag : self.m_LastEndpoint = ETwitchEndpoint.User)
    (hValid : api.IsResponseValid (some response) bWasSuccessful = true) :
    ∃ after trace,
      OnResponseReceived api ue self Request (some response) bWasSuccessful = some (after, trace)
        ∧ after.m_LastEndpoint = ETwitchEndpoint.None
        ∧ requests trace = []
        ∧ ((ue.JsonToUser response.ContentAsString self.m_TwitchUser).1 = true →
            trace = [Effect.Broadcast (Notification.OnUserAuthenticated true)]
              ∧ notifications trace = [Notification.OnUserAuthenticated true]
              ∧ GetUser after = (ue.JsonToUser response.ContentAsString self.m_TwitchUser).2)
        ∧ ((ue.JsonToUser response.ContentAsString self.m_TwitchUser).1 = false →
            trace = [Effect.Broadcast (Notification.OnUserAuthenticated false)]
              ∧ notifications trace = [Notification.OnUserAuthenticated false]
              ∧ GetLastError after = GetLastError self) := by
  cases hDecode : (ue.JsonToUser response.ContentAsString self.m_TwitchUser).1
  · refine ⟨{ self with
                m_LastEndpoint := ETwitchEndpoint.None
                m_TwitchUser := (ue.JsonToUser response.ContentAsString self.m_TwitchUser).2 },
      [Effect.Broadcast (Notification.OnUserAuthenticated false)], ?_, rfl, rfl, ?_, ?_⟩
    · simp [OnResponseReceived, hValid, hTag, HandleGetUserResponse, hDecode]
    · intro h; cases h
    · intro _; exact ⟨rfl, rfl, rfl⟩
  · refine ⟨{ self with
                m_LastEndpoint := ETwitchEndpoint.None
                m_TwitchUser := (ue.JsonToUser response.ContentAsString self.m_TwitchUser).2 },
      [Effect.Broadcast (Notification.OnUserAuthenticated true)], ?_, rfl, rfl, ?_, ?_⟩
    · simp [OnResponseReceived, hValid, hTag, HandleGetUserResponse, hDecode]
    · intro _; exact ⟨rfl, rfl, rfl⟩
    · intro h; cases h

/-- C5, run on a component awaiting the user response, with a 200 response of
body `u1`. -/
theorem OnResponseReceived_valid_user_witness :
    ∃ after trace,
      OnResponseReceived sampleApi sampleEngine
          { sampleComponent "abc" with m_LastEndpoint := ETwitchEndpoint.User } none
          (some { ResponseCode := 200, ContentAsString := "u1" }) true = some (after, trace)
        ∧ after.m_LastEndpoint = ETwitchEndpoint.None
        ∧ requests trace = []
        ∧ notifications trace = [Notification.OnUserAuthenticated true]
        ∧ GetUser after = { _id := "u1", display_name := "user" } := by
  obtain ⟨after, trace, hRun, hTag, hReq, hOk, _⟩ :=
    OnResponseReceived_valid_user sampleApi sampleEngine
      { sampleComponent "abc" with m_LastEndpoint := ETwitchEndpoint.User } none
      { ResponseCode := 200, ContentAsString := "u1" } true rfl (by decide)
  exact ⟨after, trace, hRun, hTag, hReq, (hOk (by decide)).2.1, (hOk (by decide)).2.2⟩

/-- C4: with the endpoint tag at `Channels` and any pending intent, a valid
response whose pre-extracted body fails to decode into a channel record makes the
callback store exactly `{404, "Not Found", "Channel could not be found"}` as last
error, broadcast exactly one notification, `OnUserSubscribedToChannel(false, s)`
with `s` the subscription record held before the call (so nothing on
`OnUserFollowingChannel`), send no request, and leave the endpoint tag at
`None`. -/
theorem OnResponseReceived_valid_channel_decode_failure (api : UTwitchApi) (ue : Engine)
    (self : UTwitchAuthComponent) (Request : Option FHttpRequest) (response : FHttpResponse)
    (bWasSuccessful : Bool) (hTag : self.m_LastEndpoint = ETwitchEndpoint.Channels)
    (hValid : api.IsResponseValid (some response) bWasSuccessful = true)
    (hDecode : (ue.JsonToChannelUser
      (api.ExtractTwitchChannelUserFromResponseBody response.ContentAsString)
      self.m_TwitchChannelUser).1 = false) :
    ∃ after trace,
      OnResponseReceived api ue self Request (some response) bWasSuccessful = some (after, trace)
        ∧ GetLastError after =
            { status := 404, error := "Not Found", message := "Channel could not be found" }
        ∧ notifications trace =
            [Notification.OnUserSubscribedToChannel false self.m_TwitchSubscription]
        ∧ requests trace = []
        ∧ after.m_LastEndpoint = ETwitchEndpoint.None
        ∧ trace =
            [LogError
               { status := 404, error := "Not Found", message := "Channel could not be found" },
             Effect.Broadcast
               (Notification.OnUserSubscribedToChannel false self.m_TwitchSubscription)] := by
  refine ⟨{ self with
              m_LastEndpoint := ETwitchEndpoint.None
              m_TwitchChannelUser := (ue.JsonToChannelUser
                (api.ExtractTwitchChannelUserFromResponseBody response.ContentAsString)
                self.m_TwitchChannelUser).2
              m_LastError :=
                { status := 404, error := "Not Found", message := "Channel could not be found" } },
    [LogError { status := 404, error := "Not Found", message := "Channel could not be found" },
     Effect.Broadcast (Notification.OnUserSubscribedToChannel false self.m_TwitchSubscription)],
    ?_, rfl, rfl, rfl, rfl, rfl⟩
  simp [OnResponseReceived, hValid, hTag, HandleGetChannelResponse, hDecode]

/-- C4, run on a component that asked for a following check and receives a 200
response with an empty body. -/
theorem OnResponseReceived_valid_channel_decode_failure_witness :
    ∃ after trace,
      OnResponseReceived sampleApi sampleEngine
          { sampleComponent "abc" with
              m_LastEndpoint := ETwitchEndpoint.Channels
              m_TwitchRequest := ETwitchRequest.Following } none
          (some { ResponseCode := 200, ContentAsString := "" }) true = some (after, trace)
        ∧ GetLastError after =
            { status := 404, error := "Not Found", message := "Channel could not be found" }
        ∧ notifications trace =
            [Notification.OnUserSubscribedToChannel false { _id := "", sub_plan := "" }]
        ∧ requests trace = []
        ∧ after.m_LastEndpoint = ETwitchEndpoint.None := by
  obtain ⟨after, trace, hRun, hErr, hNote, hReq, hTag, _⟩ :=
    OnResponseReceived_valid_channel_decode_failure sampleApi sampleEngine
      { sampleComponent "abc" with
          m_LastEndpoint := ETwitchEndpoint.Channels
          m_TwitchRequest := ETwitchRequest.Following } none
      { ResponseCode := 200, ContentAsString := "" } true rfl (by decide) (by decide)
  exact ⟨after, trace, hRun, hErr, hNote, hReq, hTag⟩

/-- C6: with the endpoint tag at `Channels`, a valid response whose
pre-extracted body decodes into a channel record makes the callback send exactly
one request and broadcast nothing: under the pending intent `Subscription` the
request is the subscription check for the stored user and the decoded channel and
the tag ends as `Subscriptions`; under the pending intent `Following` it is the
following check for the same pair and the tag ends as `Following`; in both cases
the pending intent ends as `None`. -/
theorem OnResponseReceived_valid_channel_decoded (api : UTwitchApi) (ue : Engine)
    (self : UTwitchAuthComponent) (Request : Option FHttpRequest) (response : FHttpResponse)
    (bWasSuccessful : Bool) (hTag : self.m_LastEndpoint = ETwitchEndpoint.Channels)
    (hValid : api.IsResponseValid (some response) bWasSuccessful = true)
    (hDecode : (ue.JsonToChannelUser
      (api.ExtractTwitchChannelUserFromResponseBody response.ContentAsString)
      self.m_TwitchChannelUser).1 = true) :
    ∃ after trace,
      OnResponseReceived api ue self Request (some response) bWasSuccessful = some (after, trace)
        ∧ after.m_TwitchRequest = ETwitchRequest.None
        ∧ notifications trace = []
        ∧ (self.m_TwitchRequest = ETwitchRequest.Subscription →
            requests trace =
                [UTwitchApi.CreateHttpRequest self.ClientId self.m_AccessToken
                  (FString.Replace (FString.Replace api.SUBSCRIPTION_ENDPOINT "$1"
                      self.m_TwitchUser._id) "$2"
                    (ue.JsonToChannelUser
                      (api.ExtractTwitchChannelUserFromResponseBody response.ContentAsString)
                      self.m_TwitchChannelUser).2._id)
                  ETwitchHttpVerb.Get]
              ∧ trace = (ExecuteCheckUserSubscriptionRequest api self self.m_TwitchUser
                  (ue.JsonToChannelUser
                    (api.ExtractTwitchChannelUserFromResponseBody response.ContentAsString)
                    self.m_TwitchChannelUser).2).2
              ∧ after.m_LastEndpoint = ETwitchEndpoint.Subscriptions)
        ∧ (self.m_TwitchRequest = ETwitchRequest.Following →
            requests trace =
                [UTwitchApi.CreateHttpRequest self.ClientId self.m_AccessToken
                  (FString.Replace (FString.Replace api.FOLLOWING_ENDPOINT "$1"
                      self.m_TwitchUser._id) "$2"
                    (ue.JsonToChannelUser
                      (api.ExtractTwitchChannelUserFromResponseBody response.ContentAsString)
                      self.m_TwitchChannelUser).2._id)
                  ETwitchHttpVerb.Get]
              ∧ trace = (ExecuteCheckUserFollowingRequest api self self.m_TwitchUser
                  (ue.JsonToChannelUser
                    (api.ExtractTwitchChannelUserFromResponseBody response.ContentAsString)
                    self.m_TwitchChannelUser).2).2
              ∧ after.m_LastEndpoint = ETwitchEndpoint.Following) := by
  cases hIntent : self.m_TwitchRequest
  · refine ⟨{ self with
                m_LastEndpoint := ETwitchEndpoint.None
                m_TwitchChannelUser := (ue.JsonToChannelUser
                  (api.ExtractTwitchChannelUserFromResponseBody response.ContentAsString)
                  self.m_TwitchChannelUser).2
                m_TwitchRequest := ETwitchRequest.None }, [], ?_, rfl, rfl, ?_, ?_⟩
    · simp [OnResponseReceived, hValid, hTag, HandleGetChannelResponse, hDecode, hIntent]
    · intro h; cases h
    · intro h; cases h
  · refine ⟨{ self with
                m_LastEndpoint := ETwitchEndpoint.Subscriptions
                m_TwitchChannelUser := (ue.JsonToChannelUser
                  (api.ExtractTwitchChannelUserFromResponseBody response.ContentAsString)
                  self.m_TwitchChannelUser).2
                m_TwitchRequest := ETwitchRequest.None },
      [Effect.ProcessRequest (UTwitchApi.CreateHttpRequest self.ClientId self.m_AccessToken
        (FString.Replace (FString.Replace api.SUBSCRIPTION_ENDPOINT "$1"
            self.m_TwitchUser._id) "$2"
          (ue.JsonToChannelUser
            (api.ExtractTwitchChannelUserFromResponseBody response.ContentAsString)
            self.m_TwitchChannelUser).2._id)
        ETwitchHttpVerb.Get)], ?_, rfl, rfl, ?_, ?_⟩
    · simp [OnResponseReceived, hValid, hTag, HandleGetChannelResponse, hDecode, hIntent,
        ExecuteCheckUserSubscriptionRequest]
    · intro _; exact ⟨rfl, rfl, rfl⟩
    · intro h; cases h
  · refine ⟨{ self with
                m_LastEndpoint := ETwitchEndpoint.Following
                m_TwitchChannelUser := (ue.JsonToChannelUser
                  (api.ExtractTwitchChannelUserFromResponseBody response.ContentAsString)
                  self.m_TwitchChannelUser).2
                m_TwitchRequest := ETwitchRequest.None },
      [Effect.ProcessRequest (UTwitchApi.CreateHttpRequest self.ClientId self.m_AccessToken
        (FString.Replace (FString.Replace api.FOLLOWING_ENDPOINT "$1"
            self.m_TwitchUser._id) "$2"
          (ue.JsonToChannelUser
            (api.ExtractTwitchChannelUserFromResponseBody response.ContentAsString)
            self.m_TwitchChannelUser).2._id)
        ETwitchHttpVerb.Get)], ?_, rfl, rfl, ?_, ?_⟩
    · simp [OnResponseReceived, hValid, hTag, HandleGetChannelResponse, hDecode, hIntent,
        ExecuteCheckUserFollowingRequest]
    · intro h; cases h
    · intro _; exact ⟨rfl, rfl, rfl⟩

/-- C6, run on a component whose user is `u7` and that asked for a subscription
check, with a 200 response of body `c9`: the request goes to
`users/u7/subscriptions/c9`. -/
theorem OnResponseReceived_valid_channel_decoded_witness :
    ∃ after trace,
      OnResponseReceived sampleApi sampleEngine
          { sampleComponent "abc" with
              m_LastEndpoint := ETwitchEndpoint.Channels
              m_TwitchRequest := ETwitchRequest.Subscription
              m_TwitchUser := { _id := "u7", display_name := "user" } } none
          (some { ResponseCode := 200, ContentAsString := "c9" }) true = some (after, trace)
        ∧ after.m_TwitchRequest = ETwitchRequest.None
        ∧ notifications trace = []
        ∧ requests trace =
            [{ ClientId := "client", AccessToken := "abc",
               Endpoint := "https://api.twitch.tv/kraken/users/u7/subscriptions/c9",
               Verb := ETwitchHttpVerb.Get }]
        ∧ after.m_LastEndpoint = ETwitchEndpoint.Subscriptions := by
  obtain ⟨after, trace, hRun, hIntent, hNote, hSub, _⟩ :=
    OnResponseReceived_valid_channel_decoded sampleApi sampleEngine
      { sampleComponent "abc" with
          m_LastEndpoint := ETwitchEndpoint.Channels
          m_TwitchRequest := ETwitchRequest.Subscription
          m_TwitchUser := { _id := "u7", display_name := "user" } } none
      { ResponseCode := 200, ContentAsString := "c9" } true rfl (by decide) (by decide)
  refine ⟨after, trace, hRun, hIntent, hNote, ?_, (hSub rfl).2.2⟩
  rw [(hSub rfl).1]
  decide

/-- C7: on a valid response, with the endpoint tag at `Subscriptions` a body
that decodes into a subscription record gives exactly one broadcast,
`OnUserSubscribedToChannel(true, r)` with `r` the record just decoded, and a body
that fails to decode gives no effect at all; with the tag at `Following` a
successful decode gives exactly `OnUserFollowingChannel(true, r)` and a failed one
nothing; in all four cases the tag ends as `None`, no request is sent and the
last error is as before. -/
theorem OnResponseReceived_valid_subscription_or_following (api : UTwitchApi) (ue : Engine)
    (self : UTwitchAuthComponent) (Request : Option FHttpRequest) (response : FHttpResponse)
    (bWasSuccessful : Bool)
    (hValid : api.IsResponseValid (some response) bWasSuccessful = true) :
    (self.m_LastEndpoint = ETwitchEndpoint.Subscriptions →
        ∃ after trace,
          OnResponseReceived api ue self Request (some response) bWasSuccessful
              = some (after, trace)
            ∧ after.m_LastEndpoint = ETwitchEndpoint.None
            ∧ requests trace = []
            ∧ GetLastError after = GetLastError self
            ∧ ((ue.JsonToSubscription response.ContentAsString self.m_TwitchSubscription).1
                  = true →
                trace = [Effect.Broadcast (Notification.OnUserSubscribedToChannel true
                  (ue.JsonToSubscription response.ContentAsString
                    self.m_TwitchSubscription).2)]
                ∧ notifications trace = [Notification.OnUserSubscribedToChannel true
                  (ue.JsonToSubscription response.ContentAsString
                    self.m_TwitchSubscription).2])
            ∧ ((ue.JsonToSubscription response.ContentAsString self.m_TwitchSubscription).1
                  = false →
                trace = [] ∧ notifications trace = []))
      ∧ (self.m_LastEndpoint = ETwitchEndpoint.Following →
        ∃ after trace,
          OnResponseReceived api ue self Request (some response) bWasSuccessful
              = some (after, trace)
            ∧ after.m_LastEndpoint = ETwitchEndpoint.None
            ∧ requests trace = []
            ∧ GetLastError after = GetLastError self
            ∧ ((ue.JsonToFollow response.ContentAsString self.m_TwitchFollow).1 = true →
                trace = [Effect.Broadcast (Notification.OnUserFollowingChannel true
                  (ue.JsonToFollow response.ContentAsString self.m_TwitchFollow).2)]
                ∧ notifications trace = [Notification.OnUserFollowingChannel true
                  (ue.JsonToFollow response.ContentAsString self.m_TwitchFollow).2])
            ∧ ((ue.JsonToFollow response.ContentAsString self.m_TwitchFollow).1 = false →
                trace = [] ∧ notifications trace = [])) := by
  constructor
  · intro hTag
    cases hDecode : (ue.JsonToSubscription response.ContentAsString self.m_TwitchSubscription).1
    · refine ⟨{ self with
                  m_LastEndpoint := ETwitchEndpoint.None
                  m_TwitchSubscription := (ue.JsonToSubscription response.ContentAsString
                    self.m_TwitchSubscription).2 }, [], ?_, rfl, rfl, rfl, ?_, ?_⟩
      · simp [OnResponseReceived, hValid, hTag, HandleCheckUserSubscriptionResponse, hDecode]
      · intro h; cases h
      · intro _; exact ⟨rfl, rfl⟩
    · refine ⟨{ self with
                  m_LastEndpoint := ETwitchEndpoint.None
                  m_TwitchSubscription := (ue.JsonToSubscription response.ContentAsString
                    self.m_TwitchSubscription).2 },
        [Effect.Broadcast (Notification.OnUserSubscribedToChannel true
          (ue.JsonToSubscription response.ContentAsString self.m_TwitchSubscription).2)],
        ?_, rfl, rfl, rfl, ?_, ?_⟩
      · simp [OnResponseReceived, hValid, hTag, HandleCheckUserSubscriptionResponse, hDecode]
      · intro _; exact ⟨rfl, rfl⟩
      · intro h; cases h
  · intro hTag
    cases hDecode : (ue.JsonToFollow response.ContentAsString self.m_TwitchFollow).1
    · refine ⟨{ self with
                  m_LastEndpoint := ETwitchEndpoint.None
                  m_TwitchFollow := (ue.JsonToFollow response.ContentAsString
                    self.m_TwitchFollow).2 }, [], ?_, rfl, rfl, rfl, ?_, ?_⟩
      · simp [OnResponseReceived, hValid, hTag, HandleCheckUserFollowingResponse, hDecode]
      · intro h; cases h
      · intro _; exact ⟨rfl, rfl⟩
    · refine ⟨{ self with
                  m_LastEndpoint := ETwitchEndpoint.None
                  m_TwitchFollow := (ue.JsonToFollow response.ContentAsString
                    self.m_TwitchFollow).2 },
        [Effect.Broadcast (Notification.OnUserFollowingChannel true
          (ue.JsonToFollow response.ContentAsString self.m_TwitchFollow).2)],
        ?_, rfl, rfl, rfl, ?_, ?_⟩
      · simp [OnResponseReceived, hValid, hTag, HandleCheckUserFollowingResponse, hDecode]
      · intro _; exact ⟨rfl, rfl⟩
      · intro h; cases h

/-- C7, run with the tag at `Subscriptions` on a body that decodes, and with the
tag at `Following` on an empty body that does not. -/
theorem OnResponseReceived_valid_subscription_or_following_witness :
    (∃ after trace,
        OnResponseReceived sampleApi sampleEngine
            { sampleComponent "abc" with m_LastEndpoint := ETwitchEndpoint.Subscriptions } none
            (some { ResponseCode := 200, ContentAsString := "s3" }) true = some (after, trace)
          ∧ after.m_LastEndpoint = ETwitchEndpoint.None
          ∧ notifications trace =
              [Notification.OnUserSubscribedToChannel true { _id := "s3", sub_plan := "1000" }])
      ∧ (∃ after trace,
        OnResponseReceived sampleApi sampleEngine
            { sampleComponent "abc" with m_LastEndpoint := ETwitchEndpoint.Following } none
            (some { ResponseCode := 200, ContentAsString := "" }) true = some (after, trace)
          ∧ after.m_LastEndpoint = ETwitchEndpoint.None
          ∧ notifications trace = []) := by
  constructor
  · obtain ⟨after, trace, hRun, hTag, _, _, hOk, _⟩ :=
      (OnResponseReceived_valid_subscription_or_following sampleApi sampleEngine
        { sampleComponent "abc" with m_LastEndpoint := ETwitchEndpoint.Subscriptions } none
        { ResponseCode := 200, ContentAsString := "s3" } true (by decide)).1 rfl
    exact ⟨after, trace, hRun, hTag, (hOk (by decide)).2⟩
  · obtain ⟨after, trace, hRun, hTag, _, _, _, hFail⟩ :=
      (OnResponseReceived_valid_subscription_or_following sampleApi sampleEngine
        { sampleComponent "abc" with m_LastEndpoint := ETwitchEndpoint.Following } none
        { ResponseCode := 200, ContentAsString := "" } true (by decide)).2 rfl
    exact ⟨after, trace, hRun, hTag, (hFail (by decide)).2⟩

/-! ## The response callback on an invalid response -/

/-- The invalid branch of the callback never assigns the endpoint tag: whatever
the tag was when an invalid response arrived, it is the same afterwards. -/
theorem OnResponseReceived_invalid_tag_unchanged (api : UTwitchApi) (ue : Engine)
    (self : UTwitchAuthComponent) (Request : Option FHttpRequest) (response : FHttpResponse)
    (bWasSuccessful : Bool)
    (hInvalid : api.IsResponseValid (some response) bWasSuccessful = false) :
    ∃ after trace,
      OnResponseReceived api ue self Request (some response) bWasSuccessful = some (after, trace)
        ∧ after = { self with
                      m_LastError := (ue.JsonToError response.ContentAsString
                        self.m_LastError).2 } := by
  cases hTag : self.m_LastEndpoint <;>
    simp [OnResponseReceived, hInvalid, hTag]

/-- On an invalid response that comes with a response object the callback sends no
request and broadcasts exactly what the endpoint tag held at the time of the call
prescribes:
`Following` gives `OnUserFollowingChannel(false, stored follow record)`,
`Subscriptions` and `Channels` both give
`OnUserSubscribedToChannel(false, stored subscription record)`, `User` gives
`OnUserAuthenticated(false)`, and `None` gives nothing. -/
theorem OnResponseReceived_invalid_notifies_by_tag (api : UTwitchApi) (ue : Engine)
    (self : UTwitchAuthComponent) (Request : Option FHttpRequest) (response : FHttpResponse)
    (bWasSuccessful : Bool)
    (hInvalid : api.IsResponseValid (some response) bWasSuccessful = false) :
    ∃ after trace,
      OnResponseReceived api ue self Request (some response) bWasSuccessful = some (after, trace)
        ∧ requests trace = []
        ∧ (self.m_LastEndpoint = ETwitchEndpoint.Following →
            notifications trace =
              [Notification.OnUserFollowingChannel false self.m_TwitchFollow])
        ∧ (self.m_LastEndpoint = ETwitchEndpoint.Subscriptions →
            notifications trace =
              [Notification.OnUserSubscribedToChannel false self.m_TwitchSubscription])
        ∧ (self.m_LastEndpoint = ETwitchEndpoint.Channels →
            notifications trace =
              [Notification.OnUserSubscribedToChannel false self.m_TwitchSubscription])
        ∧ (self.m_LastEndpoint = ETwitchEndpoint.User →
            notifications trace = [Notification.OnUserAuthenticated false])
        ∧ (self.m_LastEndpoint = ETwitchEndpoint.None → notifications trace = []) := by
  cases hTag : self.m_LastEndpoint <;>
    simp only [OnResponseReceived, hInvalid, hTag] <;>
    refine ⟨_, _, rfl, ?_⟩ <;>
    simp [requests, notifications, LogError]

/-- The failure notification, run with the tag at `Following` on a 500 response. -/
theorem OnResponseReceived_invalid_notifies_by_tag_witness :
    sampleApi.IsResponseValid (some { ResponseCode := 500, ContentAsString := "err" }) true
        = false
      ∧ ∃ after trace,
        OnResponseReceived sampleApi sampleEngine
            { sampleComponent "abc" with m_LastEndpoint := ETwitchEndpoint.Following } none
            (some { ResponseCode := 500, ContentAsString := "err" }) true = some (after, trace)
          ∧ requests trace = []
          ∧ notifications trace =
              [Notification.OnUserFollowingChannel false
                { created_at := "", notifications := false }] := by
  refine ⟨by decide, ?_⟩
  obtain ⟨after, trace, hRun, hReq, hFollowing, _⟩ :=
    OnResponseReceived_invalid_notifies_by_tag sampleApi sampleEngine
      { sampleComponent "abc" with m_LastEndpoint := ETwitchEndpoint.Following } none
      { ResponseCode := 500, ContentAsString := "err" } true (by decide)
  exact ⟨after, trace, hRun, hReq, hFollowing rfl⟩

/-- C9 does not hold of the code: the invalid branch of the callback never resets
the endpoint tag.  A component that has just sent the user request (tag `User`)
and receives a 500 response still has the tag `User` afterwards, not `None`, and
a second invalid response delivered right after broadcasts
`OnUserAuthenticated(false)` once more. -/
theorem OnResponseReceived_invalid_leaves_tag_set :
    (Authenticate sampleApi (sampleComponent "abc") none).1.m_LastEndpoint
        = ETwitchEndpoint.User
      ∧ sampleApi.IsResponseValid (some { ResponseCode := 500, ContentAsString := "err" }) true
        = false
      ∧ OnResponseReceived sampleApi sampleEngine
          (Authenticate sampleApi (sampleComponent "abc") none).1 none
          (some { ResponseCode := 500, ContentAsString := "err" }) true
        = some ({ sampleComponent "abc" with
                    m_LastEndpoint := ETwitchEndpoint.User
                    m_LastError := { status := 401, error := "err", message := "" } },
            [LogError { status := 401, error := "err", message := "" },
             Effect.Broadcast (Notification.OnUserAuthenticated false)])
      ∧ ({ sampleComponent "abc" with
            m_LastEndpoint := ETwitchEndpoint.User
            m_LastError := { status := 401, error := "err", message := "" } }
          : UTwitchAuthComponent).m_LastEndpoint ≠ ETwitchEndpoint.None
      ∧ OnResponseReceived sampleApi sampleEngine
          { sampleComponent "abc" with
              m_LastEndpoint := ETwitchEndpoint.User
              m_LastError := { status := 401, error := "err", message := "" } } none
          (some { ResponseCode := 500, ContentAsString := "err" }) true
        = some ({ sampleComponent "abc" with
                    m_LastEndpoint := ETwitchEndpoint.User
                    m_LastError := { status := 401, error := "err", message := "" } },
            [LogError { status := 401, error := "err", message := "" },
             Effect.Broadcast (Notification.OnUserAuthenticated false)]) := by
  exact ⟨by decide, by decide, rfl, by decide, rfl⟩

/-! ## Channel checks -/

/-- C11: `IsUserSubscribedToChannel(n)` sets the pending intent to
`Subscription` and `IsUserFollowingChannel(n)` sets it to `Following`; each sets
the endpoint tag to `Channels`, sends exactly one request, the GET request built
from `ClientId` and the current token whose path is `CHANNEL_ENDPOINT` followed
by `n`, broadcasts nothing, and leaves token, user record, subscription and follow
records and last error as they were (only intent and tag change, and there is no
other effect). -/
theorem IsUserSubscribedOrFollowing_requests_channel (api : UTwitchApi)
    (self : UTwitchAuthComponent) (ChannelName : String) :
    (IsUserSubscribedToChannel api self ChannelName =
        ({ self with
             m_TwitchRequest := ETwitchRequest.Subscription
             m_LastEndpoint := ETwitchEndpoint.Channels },
          [Effect.ProcessRequest
            { ClientId := self.ClientId, AccessToken := self.m_AccessToken,
              Endpoint := api.CHANNEL_ENDPOINT ++ ChannelName, Verb := ETwitchHttpVerb.Get }])
      ∧ (IsUserSubscribedToChannel api self ChannelName).1.m_TwitchRequest
          = ETwitchRequest.Subscription
      ∧ (IsUserSubscribedToChannel api self ChannelName).1.m_LastEndpoint
          = ETwitchEndpoint.Channels
      ∧ requests (IsUserSubscribedToChannel api self ChannelName).2 =
          [UTwitchApi.CreateHttpRequest self.ClientId self.m_AccessToken
            (api.CHANNEL_ENDPOINT ++ ChannelName) ETwitchHttpVerb.Get]
      ∧ notifications (IsUserSubscribedToChannel api self ChannelName).2 = []
      ∧ (IsUserSubscribedToChannel api self ChannelName).1.m_AccessToken = self.m_AccessToken
      ∧ (IsUserSubscribedToChannel api self ChannelName).1.m_TwitchUser = self.m_TwitchUser
      ∧ (IsUserSubscribedToChannel api self ChannelName).1.m_TwitchSubscription
          = self.m_TwitchSubscription
      ∧ (IsUserSubscribedToChannel api self ChannelName).1.m_TwitchFollow = self.m_TwitchFollow
      ∧ (IsUserSubscribedToChannel api self ChannelName).1.m_LastError = self.m_LastError)
    ∧ (IsUserFollowingChannel api self ChannelName =
        ({ self with
             m_TwitchRequest := ETwitchRequest.Following
             m_LastEndpoint := ETwitchEndpoint.Channels },
          [Effect.ProcessRequest
            { ClientId := self.ClientId, AccessToken := self.m_AccessToken,
              Endpoint := api.CHANNEL_ENDPOINT ++ ChannelName, Verb := ETwitchHttpVerb.Get }])
      ∧ (IsUserFollowingChannel api self ChannelName).1.m_TwitchRequest
          = ETwitchRequest.Following
      ∧ (IsUserFollowingChannel api self ChannelName).1.m_LastEndpoint
          = ETwitchEndpoint.Channels
      ∧ requests (IsUserFollowingChannel api self ChannelName).2 =
          [UTwitchApi.CreateHttpRequest self.ClientId self.m_AccessToken
            (api.CHANNEL_ENDPOINT ++ ChannelName) ETwitchHttpVerb.Get]
      ∧ notifications (IsUserFollowingChannel api self ChannelName).2 = []
      ∧ (IsUserFollowingChannel api self ChannelName).1.m_AccessToken = self.m_AccessToken
      ∧ (IsUserFollowingChannel api self ChannelName).1.m_TwitchUser = self.m_TwitchUser
      ∧ (IsUserFollowingChannel api self ChannelName).1.m_TwitchSubscription
          = self.m_TwitchSubscription
      ∧ (IsUserFollowingChannel api self ChannelName).1.m_TwitchFollow = self.m_TwitchFollow
      ∧ (IsUserFollowingChannel api self ChannelName).1.m_LastError = self.m_LastError) :=
  ⟨⟨rfl, rfl, rfl, rfl, rfl, rfl, rfl, rfl, rfl, rfl⟩,
   ⟨rfl, rfl, rfl, rfl, rfl, rfl, rfl, rfl, rfl, rfl⟩⟩

/-! ## What every return of the callback preserves -/

/-- Whenever the completion callback returns, for any response pointer and either
branch: the token is untouched; it has sent nothing, or exactly one request whose
kind is the endpoint tag it leaves behind; and if beforehand the tag `Channels`
came with a pending intent, the same holds afterwards. -/
theorem OnResponseReceived_summary (api : UTwitchApi) (ue : Engine)
    (self : UTwitchAuthComponent) (Request : Option FHttpRequest)
    (Response : Option FHttpResponse) (bWasSuccessful : Bool)
    (after : UTwitchAuthComponent) (trace : List Effect)
    (hRun : OnResponseReceived api ue self Request Response bWasSuccessful
      = some (after, trace)) :
    after.m_AccessToken = self.m_AccessToken
      ∧ (requests trace = []
          ∨ ∃ r, requests trace = [r] ∧ requestHasKind api after.m_LastEndpoint r)
      ∧ ((self.m_LastEndpoint = ETwitchEndpoint.Channels →
            self.m_TwitchRequest ≠ ETwitchRequest.None) →
          after.m_LastEndpoint = ETwitchEndpoint.Channels →
            after.m_TwitchRequest ≠ ETwitchRequest.None) := by
  unfold OnResponseReceived at hRun
  cases hValid : api.IsResponseValid Response bWasSuccessful <;>
    cases hTag : self.m_LastEndpoint <;>
    cases hIntent : self.m_TwitchRequest <;>
    cases Response <;>
    simp only [hValid, hTag, hIntent, HandleGetUserResponse, HandleGetChannelResponse,
      HandleCheckUserSubscriptionResponse, HandleCheckUserFollowingResponse,
      ExecuteCheckUserSubscriptionRequest, ExecuteCheckUserFollowingRequest,
      Bool.false_eq_true, if_false, if_true] at hRun <;>
    (try split at hRun) <;>
    cases hRun <;>
    refine ⟨rfl, ?_, ?_⟩ <;>
    simp [requests, requestHasKind, LogError, UTwitchApi.CreateHttpRequest, hTag, hIntent] <;>
    exact ⟨_, _, rfl⟩

/-- The completion callback returns whenever it is handed a response object, valid
or not, whatever the tag and the outcome of the decode. -/
theorem OnResponseReceived_returns (api : UTwitchApi) (ue : Engine)
    (self : UTwitchAuthComponent) (Request : Option FHttpRequest) (response : FHttpResponse)
    (bWasSuccessful : Bool) :
    ∃ after trace,
      OnResponseReceived api ue self Request (some response) bWasSuccessful
        = some (after, trace) := by
  unfold OnResponseReceived
  cases hValid : api.IsResponseValid (some response) bWasSuccessful <;>
    cases hTag : self.m_LastEndpoint <;>
    simp only [HandleGetUserResponse, HandleGetChannelResponse,
      HandleCheckUserSubscriptionResponse, HandleCheckUserFollowingResponse,
      Bool.false_eq_true, if_false, if_true] <;>
    (try split) <;>
    exact ⟨_, _, rfl⟩

/-! ## Frame of the access token -/

/-- C12: none of `Authenticate` (with or without a browser widget),
`IsUserSubscribedToChannel`, `IsUserFollowingChannel` and the completion callback
writes the access token.  For the callback this covers every tag, valid and
invalid responses and every decode outcome: handed a response object it returns
with the token as before, and for any response pointer at all, whenever it
returns the token is as before. -/
theorem AccessToken_frame (api : UTwitchApi) (ue : Engine) (self : UTwitchAuthComponent) :
    (∀ WebBrowser : Option UWebBrowser,
        GetAccessToken (Authenticate api self WebBrowser).1 = GetAccessToken self)
      ∧ (∀ ChannelName : String,
        GetAccessToken (IsUserSubscribedToChannel api self ChannelName).1 = GetAccessToken self)
      ∧ (∀ ChannelName : String,
        GetAccessToken (IsUserFollowingChannel api self ChannelName).1 = GetAccessToken self)
      ∧ (∀ (Request : Option FHttpRequest) (response : FHttpResponse) (bWasSuccessful : Bool),
        ∃ after trace,
          OnResponseReceived api ue self Request (some response) bWasSuccessful
              = some (after, trace)
            ∧ GetAccessToken after = GetAccessToken self)
      ∧ (∀ (Request : Option FHttpRequest) (Response : Option FHttpResponse)
          (bWasSuccessful : Bool) (after : UTwitchAuthComponent) (trace : List Effect),
        OnResponseReceived api ue self Request Response bWasSuccessful = some (after, trace) →
          GetAccessToken after = GetAccessToken self) := by
  refine ⟨?_, fun _ => rfl, fun _ => rfl, ?_, ?_⟩
  · intro WebBrowser
    unfold Authenticate
    split
    · rfl
    · cases WebBrowser <;> rfl
  · intro Request response bWasSuccessful
    obtain ⟨after, trace, hRun⟩ :=
      OnResponseReceived_returns api ue self Request response bWasSuccessful
    exact ⟨after, trace, hRun,
      (OnResponseReceived_summary api ue self Request (some response) bWasSuccessful
        after trace hRun).1⟩
  · intro Request Response bWasSuccessful after trace hRun
    exact (OnResponseReceived_summary api ue self Request Response bWasSuccessful
      after trace hRun).1

/-- C12, run on a component holding the token `abc` and awaiting the channel
response, with a 200 response of body `c9`. -/
theorem AccessToken_frame_witness :
    OnResponseReceived sampleApi sampleEngine
        { sampleComponent "abc" with
            m_LastEndpoint := ETwitchEndpoint.Channels
            m_TwitchRequest := ETwitchRequest.Following } none
        (some { ResponseCode := 200, ContentAsString := "c9" }) true
      = some ({ sampleComponent "abc" with
                  m_LastEndpoint := ETwitchEndpoint.Following
                  m_TwitchChannelUser := { _id := "c9", display_name := "channel" } },
          [Effect.ProcessRequest
            { ClientId := "client", AccessToken := "abc",
              Endpoint := "https://api.twitch.tv/kraken/users//follows/channels/c9",
              Verb := ETwitchHttpVerb.Get }])
      ∧ GetAccessToken ({ sampleComponent "abc" with
                  m_LastEndpoint := ETwitchEndpoint.Following
                  m_TwitchChannelUser := { _id := "c9", display_name := "channel" } }
                : UTwitchAuthComponent) = "abc" := by
  have hRun : OnResponseReceived sampleApi sampleEngine
        { sampleComponent "abc" with
            m_LastEndpoint := ETwitchEndpoint.Channels
            m_TwitchRequest := ETwitchRequest.Following } none
        (some { ResponseCode := 200, ContentAsString := "c9" }) true
      = some ({ sampleComponent "abc" with
                  m_LastEndpoint := ETwitchEndpoint.Following
                  m_TwitchChannelUser := { _id := "c9", display_name := "channel" } },
          [Effect.ProcessRequest
            { ClientId := "client", AccessToken := "abc",
              Endpoint := "https://api.twitch.tv/kraken/users//follows/channels/c9",
              Verb := ETwitchHttpVerb.Get }]) := by decide
  exact ⟨hRun, (AccessToken_frame sampleApi sampleEngine _).2.2.2.2 _ _ _ _ _ hRun⟩

/-! ## The single-outstanding-request discipline -/

/-- One event under the discipline keeps the following true: nothing is
outstanding, or exactly one request is and the endpoint tag is its kind. -/
theorem stepDisciplined_keeps_tag_kind (api : UTwitchApi) (ue : Engine) (sys next : System)
    (e : Event)
    (hInv : sys.outstanding = []
      ∨ ∃ r, sys.outstanding = [r] ∧ requestHasKind api sys.component.m_LastEndpoint r)
    (hStep : stepDisciplined api ue sys e = some next) :
    next.outstanding = []
      ∨ ∃ r, next.outstanding = [r] ∧ requestHasKind api next.component.m_LastEndpoint r := by
  unfold stepDisciplined at hStep
  split at hStep
  case isFalse => cases hStep
  case isTrue hD =>
    cases e with
    | Authenticate WebBrowser =>
      simp only [disciplined, decide_eq_true_eq] at hD
      simp only [dispatch, outstandingAfter, hD, List.nil_append] at hStep
      cases hStep
      by_cases hToken : sys.component.m_AccessToken = ""
      · cases WebBrowser <;> simp [Authenticate, hToken, requests, LogError]
      · simp [Authenticate, hToken, ExecuteGetUserRequest, requests, requestHasKind,
          UTwitchApi.CreateHttpRequest]
    | UrlChanged url =>
      simp only [dispatch, outstandingAfter] at hStep
      cases hStep
      cases hMarker : ue.Contains url api.ACCESS_TOKEN_URI_CONTAINS
      · simpa [HandleOnUrlChanged, hMarker, requests] using hInv
      · simp only [disciplined, hMarker, Bool.not_true, Bool.false_or,
          decide_eq_true_eq] at hD
        simp [HandleOnUrlChanged, hMarker, ExecuteGetUserRequest, requests, requestHasKind,
          UTwitchApi.CreateHttpRequest, hD]
    | IsUserSubscribedToChannel ChannelName =>
      simp only [disciplined, decide_eq_true_eq] at hD
      simp only [dispatch, outstandingAfter, hD, List.nil_append] at hStep
      cases hStep
      simp [IsUserSubscribedToChannel, ExecuteGetChannelRequest, requests, requestHasKind,
        UTwitchApi.CreateHttpRequest]
    | IsUserFollowingChannel ChannelName =>
      simp only [disciplined, decide_eq_true_eq] at hD
      simp only [dispatch, outstandingAfter, hD, List.nil_append] at hStep
      cases hStep
      simp [IsUserFollowingChannel, ExecuteGetChannelRequest, requests, requestHasKind,
        UTwitchApi.CreateHttpRequest]
    | SetAccessToken AccessToken =>
      simp only [dispatch, outstandingAfter] at hStep
      cases hStep
      simpa [SetAccessToken, requests] using hInv
    | ClearAccessToken =>
      simp only [dispatch, outstandingAfter] at hStep
      cases hStep
      simpa [ClearAccessToken, requests] using hInv
    | ResponseReceived Request Response bWasSuccessful =>
      simp only [dispatch, outstandingAfter] at hStep
      cases hRun : OnResponseReceived api ue sys.component Request Response bWasSuccessful with
      | none => simp [hRun] at hStep
      | some r =>
        obtain ⟨after, trace⟩ := r
        simp only [hRun, Option.some.injEq] at hStep
        cases hStep
        exact (OnResponseReceived_summary api ue sys.component Request Response
          bWasSuccessful after trace hRun).2.1

/-- C13: under the single-outstanding-request discipline, starting with no
request outstanding (from any component, the idle one included), every state a
run reaches has at most one request outstanding, and every outstanding request
has the kind named by the endpoint tag; hence the request a completion callback
answers next has the kind of the tag the callback dispatches on. -/
theorem single_outstanding_request_invariant (api : UTwitchApi) (ue : Engine)
    (init : UTwitchAuthComponent) (events : List Event) (sys : System)
    (hRun : runDisciplined api ue { component := init, outstanding := [] } events = some sys) :
    sys.outstanding.length ≤ 1
      ∧ (∀ r ∈ sys.outstanding, requestHasKind api sys.component.m_LastEndpoint r)
      ∧ (∀ (request : FHttpRequest) (Response : Option FHttpResponse) (bWasSuccessful : Bool),
          disciplined api ue sys
              (Event.ResponseReceived (some request) Response bWasSuccessful) = true →
            requestHasKind api sys.component.m_LastEndpoint request) := by
  have hInv : ∀ (events : List Event) (start : System),
      (start.outstanding = []
        ∨ ∃ r, start.outstanding = [r]
            ∧ requestHasKind api start.component.m_LastEndpoint r) →
      runDisciplined api ue start events = some sys →
      (sys.outstanding = []
        ∨ ∃ r, sys.outstanding = [r] ∧ requestHasKind api sys.component.m_LastEndpoint r) := by
    intro events
    induction events with
    | nil =>
      intro start hStart hEnd
      simp only [runDisciplined, Option.some.injEq] at hEnd
      rw [← hEnd]
      exact hStart
    | cons e es ih =>
      intro start hStart hEnd
      simp only [runDisciplined] at hEnd
      cases hStep : stepDisciplined api ue start e with
      | none => simp [hStep] at hEnd
      | some next =>
        simp only [hStep] at hEnd
        exact ih next (stepDisciplined_keeps_tag_kind api ue start next e hStart hStep) hEnd
  have hEnd := hInv events { component := init, outstanding := [] } (Or.inl rfl) hRun
  rcases hEnd with hNone | ⟨r, hOne, hKind⟩
  · refine ⟨by simp [hNone], by simp [hNone], ?_⟩
    intro request Response bWasSuccessful hD
    simp [disciplined, hNone] at hD
  · refine ⟨by simp [hOne], by simpa [hOne] using hKind, ?_⟩
    intro request Response bWasSuccessful hD
    simp only [disciplined, hOne, decide_eq_true_eq, List.cons.injEq, and_true] at hD
    rw [← hD]
    exact hKind

/-- C13, run on a login followed by a subscription check: `Authenticate` with the
token `abc`, the user response, `IsUserSubscribedToChannel("chan")`, the channel
response.  One request, the subscription check, is then outstanding and the tag is
`Subscriptions`. -/
theorem single_outstanding_request_invariant_witness :
    runDisciplined sampleApi sampleEngine
        { component := sampleComponent "abc", outstanding := [] }
        [Event.Authenticate none,
         Event.ResponseReceived
           (some { ClientId := "client", AccessToken := "abc",
                   Endpoint := "https://api.twitch.tv/kraken/user",
                   Verb := ETwitchHttpVerb.Get })
           (some { ResponseCode := 200, ContentAsString := "u7" }) true,
         Event.IsUserSubscribedToChannel "chan",
         Event.ResponseReceived
           (some { ClientId := "client", AccessToken := "abc",
                   Endpoint := "https://api.twitch.tv/kraken/users?login=chan",
                   Verb := ETwitchHttpVerb.Get })
           (some { ResponseCode := 200, ContentAsString := "c9" }) true]
      = some
          { component :=
              { sampleComponent "abc" with
                  m_LastEndpoint := ETwitchEndpoint.Subscriptions
                  m_TwitchUser := { _id := "u7", display_name := "user" }
                  m_TwitchChannelUser := { _id := "c9", display_name := "channel" } }
            outstanding :=
              [{ ClientId := "client", AccessToken := "abc",
                 Endpoint := "https://api.twitch.tv/kraken/users/u7/subscriptions/c9",
                 Verb := ETwitchHttpVerb.Get }] }
      ∧ ∀ r ∈ [({ ClientId := "client", AccessToken := "abc",
                  Endpoint := "https://api.twitch.tv/kraken/users/u7/subscriptions/c9",
                  Verb := ETwitchHttpVerb.Get } : FHttpRequest)],
          requestHasKind sampleApi ETwitchEndpoint.Subscriptions r := by
  have hRun : runDisciplined sampleApi sampleEngine
        { component := sampleComponent "abc", outstanding := [] }
        [Event.Authenticate none,
         Event.ResponseReceived
           (some { ClientId := "client", AccessToken := "abc",
                   Endpoint := "https://api.twitch.tv/kraken/user",
                   Verb := ETwitchHttpVerb.Get })
           (some { ResponseCode := 200, ContentAsString := "u7" }) true,
         Event.IsUserSubscribedToChannel "chan",
         Event.ResponseReceived
           (some { ClientId := "client", AccessToken := "abc",
                   Endpoint := "https://api.twitch.tv/kraken/users?login=chan",
                   Verb := ETwitchHttpVerb.Get })
           (some { ResponseCode := 200, ContentAsString := "c9" }) true]
      = some
          { component :=
              { sampleComponent "abc" with
                  m_LastEndpoint := ETwitchEndpoint.Subscriptions
                  m_TwitchUser := { _id := "u7", display_name := "user" }
                  m_TwitchChannelUser := { _id := "c9", display_name := "channel" } }
            outstanding :=
              [{ ClientId := "client", AccessToken := "abc",
                 Endpoint := "https://api.twitch.tv/kraken/users/u7/subscriptions/c9",
                 Verb := ETwitchHttpVerb.Get }] } := by decide
  exact ⟨hRun, (single_outstanding_request_invariant sampleApi sampleEngine
    (sampleComponent "abc") _ _ hRun).2.1⟩

/-! ## A channel lookup always has an intent -/

/-- Every event, in any order and with no discipline, keeps the following true:
if the endpoint tag is `Channels`, the pending intent is not `None`. -/
theorem dispatch_keeps_channel_intent (api : UTwitchApi) (ue : Engine)
    (self after : UTwitchAuthComponent) (trace : List Effect) (e : Event)
    (hInv : self.m_LastEndpoint = ETwitchEndpoint.Channels →
      self.m_TwitchRequest ≠ ETwitchRequest.None)
    (hStep : dispatch api ue self e = some (after, trace)) :
    after.m_LastEndpoint = ETwitchEndpoint.Channels →
      after.m_TwitchRequest ≠ ETwitchRequest.None := by
  cases e with
  | Authenticate WebBrowser =>
    simp only [dispatch, Option.some.injEq] at hStep
    by_cases hToken : self.m_AccessToken = ""
    · cases WebBrowser <;>
        simp only [Authenticate, hToken, ne_eq, not_true_eq_false, if_false,
          Prod.mk.injEq] at hStep <;>
        obtain ⟨rfl, _⟩ := hStep <;>
        exact hInv
    · simp only [Authenticate, hToken, ne_eq, not_false_eq_true, if_true,
        ExecuteGetUserRequest, Prod.mk.injEq] at hStep
      obtain ⟨rfl, _⟩ := hStep
      intro h
      cases h
  | UrlChanged url =>
    simp only [dispatch, Option.some.injEq] at hStep
    cases hMarker : ue.Contains url api.ACCESS_TOKEN_URI_CONTAINS
    · simp only [HandleOnUrlChanged, hMarker, Bool.false_eq_true, if_false,
        Prod.mk.injEq] at hStep
      obtain ⟨rfl, _⟩ := hStep
      exact hInv
    · simp only [HandleOnUrlChanged, hMarker, if_true, ExecuteGetUserRequest,
        Prod.mk.injEq] at hStep
      obtain ⟨rfl, _⟩ := hStep
      intro h
      cases h
  | IsUserSubscribedToChannel ChannelName =>
    simp only [dispatch, Option.some.injEq, IsUserSubscribedToChannel,
      ExecuteGetChannelRequest, Prod.mk.injEq] at hStep
    obtain ⟨rfl, _⟩ := hStep
    intro _ h
    cases h
  | IsUserFollowingChannel ChannelName =>
    simp only [dispatch, Option.some.injEq, IsUserFollowingChannel,
      ExecuteGetChannelRequest, Prod.mk.injEq] at hStep
    obtain ⟨rfl, _⟩ := hStep
    intro _ h
    cases h
  | SetAccessToken AccessToken =>
    simp only [dispatch, Option.some.injEq, SetAccessToken, Prod.mk.injEq] at hStep
    obtain ⟨rfl, _⟩ := hStep
    exact hInv
  | ClearAccessToken =>
    simp only [dispatch, Option.some.injEq, ClearAccessToken, Prod.mk.injEq] at hStep
    obtain ⟨rfl, _⟩ := hStep
    exact hInv
  | ResponseReceived Request Response bWasSuccessful =>
    exact (OnResponseReceived_summary api ue self Request Response bWasSuccessful
      after trace hStep).2.2 hInv

/-- C15: in every state reached from an initial state with endpoint tag `None`
by any finite sequence of events, in any order, the tag `Channels` comes with a
pending intent other than `None`; consequently, in such a state with the tag at
`Channels`, a valid response whose body decodes into a channel makes the callback
send exactly one follow-up request, the subscription check or the following check
for the stored user and the decoded channel. -/
theorem channel_tag_has_intent (api : UTwitchApi) (ue : Engine)
    (init : UTwitchAuthComponent) (hIdle : init.m_LastEndpoint = ETwitchEndpoint.None)
    (events : List Event) (self : UTwitchAuthComponent)
    (hRun : runEvents api ue init events = some self) :
    (self.m_LastEndpoint = ETwitchEndpoint.Channels →
        self.m_TwitchRequest ≠ ETwitchRequest.None)
      ∧ (self.m_LastEndpoint = ETwitchEndpoint.Channels →
        ∀ (Request : Option FHttpRequest) (response : FHttpResponse) (bWasSuccessful : Bool),
          api.IsResponseValid (some response) bWasSuccessful = true →
          (ue.JsonToChannelUser
            (api.ExtractTwitchChannelUserFromResponseBody response.ContentAsString)
            self.m_TwitchChannelUser).1 = true →
          ∃ after trace,
            OnResponseReceived api ue self Request (some response) bWasSuccessful
                = some (after, trace)
              ∧ (requests trace =
                    [UTwitchApi.CreateHttpRequest self.ClientId self.m_AccessToken
                      (FString.Replace (FString.Replace api.SUBSCRIPTION_ENDPOINT "$1"
                          self.m_TwitchUser._id) "$2"
                        (ue.JsonToChannelUser
                          (api.ExtractTwitchChannelUserFromResponseBody
                            response.ContentAsString)
                          self.m_TwitchChannelUser).2._id)
                      ETwitchHttpVerb.Get]
                  ∨ requests trace =
                    [UTwitchApi.CreateHttpRequest self.ClientId self.m_AccessToken
                      (FString.Replace (FString.Replace api.FOLLOWING_ENDPOINT "$1"
                          self.m_TwitchUser._id) "$2"
                        (ue.JsonToChannelUser
                          (api.ExtractTwitchChannelUserFromResponseBody
                            response.ContentAsString)
                          self.m_TwitchChannelUser).2._id)
                      ETwitchHttpVerb.Get])
              ∧ (requests trace).length = 1) := by
  have hInv : ∀ (events : List Event) (start : UTwitchAuthComponent),
      (start.m_LastEndpoint = ETwitchEndpoint.Channels →
        start.m_TwitchRequest ≠ ETwitchRequest.None) →
      runEvents api ue start events = some self →
      (self.m_LastEndpoint = ETwitchEndpoint.Channels →
        self.m_TwitchRequest ≠ ETwitchRequest.None) := by
    intro events
    induction events with
    | nil =>
      intro start hStart hEnd
      simp only [runEvents, Option.some.injEq] at hEnd
      rw [← hEnd]
      exact hStart
    | cons e es ih =>
      intro start hStart hEnd
      simp only [runEvents] at hEnd
      cases hStep : dispatch api ue start e with
      | none => simp [hStep] at hEnd
      | some r =>
        obtain ⟨next, trace⟩ := r
        simp only [hStep] at hEnd
        exact ih next (dispatch_keeps_channel_intent api ue start next trace e hStart hStep)
          hEnd
  have hIntent := hInv events init (by intro h; rw [hIdle] at h; cases h) hRun
  refine ⟨hIntent, ?_⟩
  intro hTag Request response bWasSuccessful hValid hDecode
  have hSome := hIntent hTag
  cases hI : self.m_TwitchRequest with
  | None => exact absurd hI hSome
  | Subscription =>
    refine ⟨{ self with
                m_LastEndpoint := ETwitchEndpoint.Subscriptions
                m_TwitchChannelUser := (ue.JsonToChannelUser
                  (api.ExtractTwitchChannelUserFromResponseBody response.ContentAsString)
                  self.m_TwitchChannelUser).2
                m_TwitchRequest := ETwitchRequest.None },
      [Effect.ProcessRequest (UTwitchApi.CreateHttpRequest self.ClientId self.m_AccessToken
        (FString.Replace (FString.Replace api.SUBSCRIPTION_ENDPOINT "$1"
            self.m_TwitchUser._id) "$2"
          (ue.JsonToChannelUser
            (api.ExtractTwitchChannelUserFromResponseBody response.ContentAsString)
            self.m_TwitchChannelUser).2._id)
        ETwitchHttpVerb.Get)], ?_, Or.inl rfl, rfl⟩
    simp [OnResponseReceived, hValid, hTag, HandleGetChannelResponse, hDecode, hI,
      ExecuteCheckUserSubscriptionRequest]
  | Following =>
    refine ⟨{ self with
                m_LastEndpoint := ETwitchEndpoint.Following
                m_TwitchChannelUser := (ue.JsonToChannelUser
                  (api.ExtractTwitchChannelUserFromResponseBody response.ContentAsString)
                  self.m_TwitchChannelUser).2
                m_TwitchRequest := ETwitchRequest.None },
      [Effect.ProcessRequest (UTwitchApi.CreateHttpRequest self.ClientId self.m_AccessToken
        (FString.Replace (FString.Replace api.FOLLOWING_ENDPOINT "$1"
            self.m_TwitchUser._id) "$2"
          (ue.JsonToChannelUser
            (api.ExtractTwitchChannelUserFromResponseBody response.ContentAsString)
            self.m_TwitchChannelUser).2._id)
        ETwitchHttpVerb.Get)], ?_, Or.inr rfl, rfl⟩
    simp [OnResponseReceived, hValid, hTag, HandleGetChannelResponse, hDecode, hI,
      ExecuteCheckUserFollowingRequest]

/-- C15, run on a fresh component after `IsUserFollowingChannel("chan")`: the tag
is `Channels`, the intent is `Following`, and a 200 response of body `c9` is
followed by exactly one request, the following check. -/
theorem channel_tag_has_intent_witness :
    runEvents sampleApi sampleEngine (sampleComponent "abc")
        [Event.IsUserFollowingChannel "chan"]
      = some { sampleComponent "abc" with
                 m_LastEndpoint := ETwitchEndpoint.Channels
                 m_TwitchRequest := ETwitchRequest.Following }
      ∧ ({ sampleComponent "abc" with
             m_LastEndpoint := ETwitchEndpoint.Channels
             m_TwitchRequest := ETwitchRequest.Following }
          : UTwitchAuthComponent).m_TwitchRequest ≠ ETwitchRequest.None
      ∧ ∃ after trace,
          OnResponseReceived sampleApi sampleEngine
              { sampleComponent "abc" with
                  m_LastEndpoint := ETwitchEndpoint.Channels
                  m_TwitchRequest := ETwitchRequest.Following } none
              (some { ResponseCode := 200, ContentAsString := "c9" }) true
            = some (after, trace)
          ∧ (requests trace).length = 1 := by
  have hRun : runEvents sampleApi sampleEngine (sampleComponent "abc")
        [Event.IsUserFollowingChannel "chan"]
      = some { sampleComponent "abc" with
                 m_LastEndpoint := ETwitchEndpoint.Channels
                 m_TwitchRequest := ETwitchRequest.Following } := by decide
  have h := channel_tag_has_intent sampleApi sampleEngine (sampleComponent "abc") rfl
    [Event.IsUserFollowingChannel "chan"] _ hRun
  obtain ⟨after, trace, hCall, _, hOne⟩ :=
    h.2 rfl none { ResponseCode := 200, ContentAsString := "c9" } true (by decide) (by decide)
  exact ⟨hRun, h.1 rfl, after, trace, hCall, hOne⟩

/-! ## Placeholder substitution in the check requests -/

/-- At an occurrence of a two-character pattern the loop emits the replacement and
continues after the occurrence. -/
theorem ReplaceChars_match (p q : Char) (To rest : List Char) :
    FString.ReplaceChars [p, q] To 0 (p :: q :: rest)
      = To ++ FString.ReplaceChars [p, q] To 0 rest := by
  simp [FString.ReplaceChars]

/-- Where the text does not start with the pattern the loop copies one character. -/
theorem ReplaceChars_skip (p q a : Char) (To rest : List Char)
    (h : [p, q].isPrefixOf (a :: rest) = false) :
    FString.ReplaceChars [p, q] To 0 (a :: rest)
      = a :: FString.ReplaceChars [p, q] To 0 rest := by
  simp [FString.ReplaceChars, h]

/-- Text free of the first pattern character is copied unchanged. -/
theorem ReplaceChars_append_clean (p q : Char) (To : List Char) (u x : List Char)
    (hu : p ∉ u) :
    FString.ReplaceChars [p, q] To 0 (u ++ x) = u ++ FString.ReplaceChars [p, q] To 0 x := by
  induction u with
  | nil => rfl
  | cons a u ih =>
    have ha : a ≠ p := fun h => hu (by simp [h])
    have hu2 : p ∉ u := fun h => hu (by simp [h])
    have hSkip : [p, q].isPrefixOf (a :: (u ++ x)) = false := by
      simp [List.isPrefixOf, Ne.symm ha]
    rw [List.cons_append, ReplaceChars_skip p q a To (u ++ x) hSkip, ih hu2]
    rfl

/-- With a two-character pattern `Replace` is the scanning loop on the characters,
the empty string included. -/
theorem Replace_data (s To : String) (p q : Char) :
    FString.Replace s (String.mk [p, q]) To
      = String.mk (FString.ReplaceChars [p, q] To.data 0 s.data) := by
  unfold FString.Replace
  by_cases h : s.data = []
  · have : s = String.mk [] := by cases s; simp_all
    subst this
    simp [FString.ReplaceChars]
  · simp [h]

/-- A template without `$$1` has no `$$1` after its first character either. -/
theorem dollarBeforeUserPlaceholder_tail (a : Char) (t : List Char)
    (h : dollarBeforeUserPlaceholder (a :: t) = false) :
    dollarBeforeUserPlaceholder t = false := by
  match t, h with
  | [], _ => rfl
  | [_], _ => rfl
  | b :: c :: rest, h =>
    simp only [dollarBeforeUserPlaceholder, Bool.or_eq_false_iff] at h
    exact h.2

/-- Replacing `$1` and then `$2` agrees with the one-pass substitution when the
user id has no `$` and the template no `$$1`. -/
theorem sequential_eq_simultaneous (u c : List Char) (hu : '$' ∉ u) :
    ∀ (n : Nat) (t : List Char), t.length ≤ n → dollarBeforeUserPlaceholder t = false →
      FString.ReplaceChars ['$', '2'] c 0 (FString.ReplaceChars ['$', '1'] u 0 t)
        = substitutePlaceholdersChars u c t := by
  intro n
  induction n with
  | zero =>
    intro t ht _
    have : t = [] := List.length_eq_zero.mp (Nat.le_zero.mp ht)
    subst this
    rfl
  | succ n ih =>
    intro t ht hClean
    match t, ht, hClean with
    | [], _, _ => rfl
    | [a], _, _ =>
      simp [FString.ReplaceChars, substitutePlaceholdersChars]
    | a :: b :: rest, ht, hClean =>
      have hLenTail : (b :: rest).length ≤ n := by
        simp only [List.length_cons] at ht ⊢
        omega
      have hLenRest : rest.length ≤ n := by
        simp only [List.length_cons] at ht
        omega
      have hCleanTail := dollarBeforeUserPlaceholder_tail a (b :: rest) hClean
      have hCleanRest := dollarBeforeUserPlaceholder_tail b rest hCleanTail
      by_cases ha : a = '$'
      · subst ha
        by_cases hb1 : b = '1'
        · subst hb1
          rw [ReplaceChars_match, ReplaceChars_append_clean '$' '2' c u _ hu,
            ih rest hLenRest hCleanRest]
          simp [substitutePlaceholdersChars]
        · by_cases hb2 : b = '2'
          · subst hb2
            rw [ReplaceChars_skip '$' '1' '$' u _ (by simp [List.isPrefixOf]),
              ReplaceChars_skip '$' '1' '2' u _ (by simp [List.isPrefixOf]),
              ReplaceChars_match, ih rest hLenRest hCleanRest]
            simp [substitutePlaceholdersChars]
          · have hHead : ['$', '2'].isPrefixOf
                ('$' :: FString.ReplaceChars ['$', '1'] u 0 (b :: rest)) = false := by
              by_cases hb : b = '$'
              · subst hb
                match rest, hClean with
                | [], _ => simp [FString.ReplaceChars, List.isPrefixOf]
                | d :: rest2, hClean =>
                  have hd : d ≠ '1' := by
                    intro hd
                    subst hd
                    simp [dollarBeforeUserPlaceholder] at hClean
                  rw [ReplaceChars_skip '$' '1' '$' u _
                    (by simp [List.isPrefixOf, Ne.symm hd])]
                  simp [List.isPrefixOf]
              · rw [ReplaceChars_skip '$' '1' b u _ (by simp [List.isPrefixOf, Ne.symm hb])]
                simp [List.isPrefixOf, Ne.symm hb2]
            rw [ReplaceChars_skip '$' '1' '$' u _ (by simp [List.isPrefixOf, Ne.symm hb1]),
              ReplaceChars_skip '$' '2' '$' c _ hHead, ih (b :: rest) hLenTail hCleanTail]
            simp [substitutePlaceholdersChars, hb1, hb2]
      · rw [ReplaceChars_skip '$' '1' a u _ (by simp [List.isPrefixOf, Ne.symm ha]),
          ReplaceChars_skip '$' '2' a c _ (by simp [List.isPrefixOf, Ne.symm ha]),
          ih (b :: rest) hLenTail hCleanTail]
        simp [substitutePlaceholdersChars, ha]

/-- The two `Replace` calls of the check requests, on strings. -/
theorem Replace_twice_eq_substitutePlaceholders (template userId channelId : String)
    (hUser : '$' ∉ userId.data)
    (hTemplate : dollarBeforeUserPlaceholder template.data = false) :
    FString.Replace (FString.Replace template "$1" userId) "$2" channelId
      = substitutePlaceholders template userId channelId := by
  have h1 : ("$1" : String) = String.mk ['$', '1'] := rfl
  have h2 : ("$2" : String) = String.mk ['$', '2'] := rfl
  rw [h1, h2, Replace_data, Replace_data]
  unfold substitutePlaceholders
  rw [sequential_eq_simultaneous userId.data channelId.data hUser template.data.length
    template.data (Nat.le_refl _) hTemplate]

/-- C14 as stated fails: with the user id `$2` the subscription check and the
following check go to `.../c9/.../c9`, because the second `Replace` also rewrites
the `$2` that the first one inserted, whereas substituting the ids literally gives
`.../$2/.../c9`. -/
theorem check_request_endpoint_rewrites_inserted_user_id :
    requests (ExecuteCheckUserSubscriptionRequest sampleApi (sampleComponent "abc")
        { _id := "$2", display_name := "user" } { _id := "c9", display_name := "channel" }).2
      = [{ ClientId := "client", AccessToken := "abc",
           Endpoint := "https://api.twitch.tv/kraken/users/c9/subscriptions/c9",
           Verb := ETwitchHttpVerb.Get }]
      ∧ substitutePlaceholders sampleApi.SUBSCRIPTION_ENDPOINT "$2" "c9"
        = "https://api.twitch.tv/kraken/users/$2/subscriptions/c9"
      ∧ requests (ExecuteCheckUserFollowingRequest sampleApi (sampleComponent "abc")
        { _id := "$2", display_name := "user" } { _id := "c9", display_name := "channel" }).2
      = [{ ClientId := "client", AccessToken := "abc",
           Endpoint := "https://api.twitch.tv/kraken/users/c9/follows/channels/c9",
           Verb := ETwitchHttpVerb.Get }]
      ∧ substitutePlaceholders sampleApi.FOLLOWING_ENDPOINT "$2" "c9"
        = "https://api.twitch.tv/kraken/users/$2/follows/channels/c9"
      ∧ requests (ExecuteCheckUserSubscriptionRequest sampleApi (sampleComponent "abc")
        { _id := "$2", display_name := "user" } { _id := "c9", display_name := "channel" }).2
      ≠ [UTwitchApi.CreateHttpRequest "client" "abc"
          (substitutePlaceholders sampleApi.SUBSCRIPTION_ENDPOINT "$2" "c9")
          ETwitchHttpVerb.Get] := by
  decide

/-- Agreement with the one-pass substitution: when the user id contains no `$`,
then for every template without a `$` directly in front of a `$1` placeholder
and every channel id, the subscription check and the following check are each
the single GET request whose path is the template with every `$1` replaced by
the user id and every `$2` by the channel id, both copied literally. -/
theorem check_request_endpoint_substitutes_placeholders (api : UTwitchApi)
    (self : UTwitchAuthComponent) (TwitchUser : FTwitchUser)
    (TwitchChannel : FTwitchChannelUser) (hUser : '$' ∉ TwitchUser._id.data) :
    (dollarBeforeUserPlaceholder api.SUBSCRIPTION_ENDPOINT.data = false →
        requests (ExecuteCheckUserSubscriptionRequest api self TwitchUser TwitchChannel).2
          = [UTwitchApi.CreateHttpRequest self.ClientId self.m_AccessToken
              (substitutePlaceholders api.SUBSCRIPTION_ENDPOINT TwitchUser._id
                TwitchChannel._id)
              ETwitchHttpVerb.Get])
      ∧ (dollarBeforeUserPlaceholder api.FOLLOWING_ENDPOINT.data = false →
        requests (ExecuteCheckUserFollowingRequest api self TwitchUser TwitchChannel).2
          = [UTwitchApi.CreateHttpRequest self.ClientId self.m_AccessToken
              (substitutePlaceholders api.FOLLOWING_ENDPOINT TwitchUser._id
                TwitchChannel._id)
              ETwitchHttpVerb.Get]) := by
  constructor
  · intro hTemplate
    simp only [ExecuteCheckUserSubscriptionRequest, requests,
      Replace_twice_eq_substitutePlaceholders _ _ _ hUser hTemplate]
  · intro hTemplate
    simp only [ExecuteCheckUserFollowingRequest, requests,
      Replace_twice_eq_substitutePlaceholders _ _ _ hUser hTemplate]

/-- The agreement, run with the user id `u7` and the channel id `c9`. -/
theorem check_request_endpoint_substitutes_placeholders_witness :
    '$' ∉ ("u7" : String).data
      ∧ requests (ExecuteCheckUserSubscriptionRequest sampleApi (sampleComponent "abc")
          { _id := "u7", display_name := "user" }
          { _id := "c9", display_name := "channel" }).2
        = [{ ClientId := "client", AccessToken := "abc",
             Endpoint := "https://api.twitch.tv/kraken/users/u7/subscriptions/c9",
             Verb := ETwitchHttpVerb.Get }]
      ∧ requests (ExecuteCheckUserFollowingRequest sampleApi (sampleComponent "abc")
          { _id := "u7", display_name := "user" }
          { _id := "c9", display_name := "channel" }).2
        = [{ ClientId := "client", AccessToken := "abc",
             Endpoint := "https://api.twitch.tv/kraken/users/u7/follows/channels/c9",
             Verb := ETwitchHttpVerb.Get }] := by
  have hUser : '$' ∉ ("u7" : String).data := by decide
  have h := check_request_endpoint_substitutes_placeholders sampleApi (sampleComponent "abc")
    { _id := "u7", display_name := "user" } { _id := "c9", display_name := "channel" } hUser
  refine ⟨hUser, ?_, ?_⟩
  · rw [h.1 (by decide)]
    decide
  · rw [h.2 (by decide)]
    decide

/-! ## Sequential substitution in the check requests -/

/-- The scanning loop of `Replace` for the pattern `$digit` is the one-pass
replacement of that placeholder. -/
theorem ReplaceChars_eq_replacePlaceholderChars (digit : Char) (value : List Char) :
    ∀ (n : Nat) (t : List Char), t.length ≤ n →
      FString.ReplaceChars ['$', digit] value 0 t = replacePlaceholderChars digit value t := by
  intro n
  induction n with
  | zero =>
    intro t ht
    have hNil : t = [] := List.length_eq_zero.mp (Nat.le_zero.mp ht)
    subst hNil
    rfl
  | succ n ih =>
    intro t ht
    match t, ht with
    | [], _ => rfl
    | [a], _ =>
      simp [FString.ReplaceChars, replacePlaceholderChars]
    | a :: b :: rest, ht =>
      have hLenTail : (b :: rest).length ≤ n := by
        simp only [List.length_cons] at ht ⊢
        omega
      have hLenRest : rest.length ≤ n := by
        simp only [List.length_cons] at ht
        omega
      by_cases hHit : a = '$' ∧ b = digit
      · obtain ⟨ha, hb⟩ := hHit
        subst ha
        subst hb
        rw [ReplaceChars_match, ih rest hLenRest]
        simp [replacePlaceholderChars]
      · have hSkip : ['$', digit].isPrefixOf (a :: b :: rest) = false := by
          by_cases ha : a = '$'
          · have hb : b ≠ digit := fun hb => hHit ⟨ha, hb⟩
            simp [List.isPrefixOf, ha, Ne.symm hb]
          · simp [List.isPrefixOf, Ne.symm ha]
        rw [ReplaceChars_skip '$' digit a value (b :: rest) hSkip, ih (b :: rest) hLenTail]
        simp [replacePlaceholderChars, hHit]

/-- The two `Replace` calls of the check requests are the sequential substitution,
for every template and all ids. -/
theorem Replace_twice_eq_substituteSequentially (template userId channelId : String) :
    FString.Replace (FString.Replace template "$1" userId) "$2" channelId
      = substituteSequentially template userId channelId := by
  have h1 : ("$1" : String) = String.mk ['$', '1'] := rfl
  have h2 : ("$2" : String) = String.mk ['$', '2'] := rfl
  rw [h1, h2, Replace_data, Replace_data]
  unfold substituteSequentially
  rw [ReplaceChars_eq_replacePlaceholderChars '1' userId.data template.data.length
      template.data (Nat.le_refl _),
    ReplaceChars_eq_replacePlaceholderChars '2' channelId.data _ _ (Nat.le_refl _)]

/-- C14, amended: for every endpoint template, every user id and every channel
id, with no condition on any of them, the subscription check and the following
check are each the single GET request whose path is the template in which every
`$1` is replaced by the user id and then, in the text so obtained, every `$2` is
replaced by the channel id; the channel id is copied as it is, while a `$2` that
the inserted user id forms is replaced like those of the template. -/
theorem check_request_endpoint_substitutes_sequentially (api : UTwitchApi)
    (self : UTwitchAuthComponent) (TwitchUser : FTwitchUser)
    (TwitchChannel : FTwitchChannelUser) :
    requests (ExecuteCheckUserSubscriptionRequest api self TwitchUser TwitchChannel).2
        = [UTwitchApi.CreateHttpRequest self.ClientId self.m_AccessToken
            (substituteSequentially api.SUBSCRIPTION_ENDPOINT TwitchUser._id
              TwitchChannel._id)
            ETwitchHttpVerb.Get]
      ∧ requests (ExecuteCheckUserFollowingRequest api self TwitchUser TwitchChannel).2
        = [UTwitchApi.CreateHttpRequest self.ClientId self.m_AccessToken
            (substituteSequentially api.FOLLOWING_ENDPOINT TwitchUser._id
              TwitchChannel._id)
            ETwitchHttpVerb.Get] := by
  constructor
  · simp only [ExecuteCheckUserSubscriptionRequest, requests,
      Replace_twice_eq_substituteSequentially]
  · simp only [ExecuteCheckUserFollowingRequest, requests,
      Replace_twice_eq_substituteSequentially]

/-! ## An invalid response without a response object -/

/-- The invalid branch reads the body of the response before anything else, so the
callback does not return when the response pointer is null and the response is
judged invalid, whatever the endpoint tag. -/
theorem OnResponseReceived_invalid_null_response (api : UTwitchApi) (ue : Engine)
    (self : UTwitchAuthComponent) (Request : Option FHttpRequest) (bWasSuccessful : Bool)
    (hInvalid : api.IsResponseValid none bWasSuccessful = false) :
    OnResponseReceived api ue self Request none bWasSuccessful = none := by
  simp [OnResponseReceived, hInvalid]

/-- C8 fails on the code for a transport failure that delivers no response object:
a component that has just sent the user request (tag `User`) and whose completion
callback is called with a null response and `bWasSuccessful = false`, an invalid
response, does not return from the callback, so no `OnUserAuthenticated(false)`
is broadcast; the same call with a response object does broadcast it. -/
theorem OnResponseReceived_invalid_null_response_not_notified :
    (Authenticate sampleApi (sampleComponent "abc") none).1.m_LastEndpoint
        = ETwitchEndpoint.User
      ∧ sampleApi.IsResponseValid none false = false
      ∧ OnResponseReceived sampleApi sampleEngine
          (Authenticate sampleApi (sampleComponent "abc") none).1
          (some { ClientId := "client", AccessToken := "abc",
                  Endpoint := "https://api.twitch.tv/kraken/user",
                  Verb := ETwitchHttpVerb.Get })
          none false
        = none
      ∧ OnResponseReceived sampleApi sampleEngine
          (Authenticate sampleApi (sampleComponent "abc") none).1
          (some { ClientId := "client", AccessToken := "abc",
                  Endpoint := "https://api.twitch.tv/kraken/user",
                  Verb := ETwitchHttpVerb.Get })
          (some { ResponseCode := 0, ContentAsString := "" }) false
        = some ({ sampleComponent "abc" with m_LastEndpoint := ETwitchEndpoint.User },
            [LogError { status := 0, error := "", message := "" },
             Effect.Broadcast (Notification.OnUserAuthenticated false)]) := by
  exact ⟨by decide, by decide, rfl, rfl⟩

end TwitchAuth
